import Mathlib

/-!
Verification development for the DRT-PRR post-disaster recovery simulator.

The definitions below are a shallow embedding of the Python sources
`drt_prr/config.py`, `drt_prr/stochastic_manager.py`, `drt_prr/model.py`
and `drt_prr/agent.py`.  Python floats are modelled as rationals (`ℚ`),
Python ints as `Nat`/`Int`, dictionaries either as association lists
(where the source iterates over them) or as functions into `Option`
(where the source only performs keyed `get` lookups), and Python `None`
as `Option.none`.  String-valued identifiers of the source (rental unit
ids of the form `f"{building}_{household}"`, status labels, decision
categories) are modelled by pairs of naturals respectively by finite
enumeration types, which is a bijective renaming.  `float('inf')` in the
evacuation limits is modelled by `⊤ : ℕ∞`.  Euclidean distances computed
with `np.linalg.norm` are modelled by an abstract distance function held
in the model state; every place the source uses a distance uses it only
through order comparisons, which any fixed representative (for instance
the squared Euclidean distance) preserves.
-/

namespace DRTPRR

/-! ## config.py -/

/-- Satisfaction threshold `SATISFACTION_THRESHOLD = 0.5` (config.py). -/
def SATISFACTION_THRESHOLD : ℚ := 1/2

/-- Target cumulative stochasticity `TARGET_STOCHASTICITY = 0.10` (config.py). -/
def TARGET_STOCHASTICITY : ℚ := 1/10

/-- Per-shelter capacity `DEFAULT_SHELTER_CAPACITY = 1` (config.py). -/
def DEFAULT_SHELTER_CAPACITY : Nat := 1

/-- Total number of shelter units `TOTAL_SHELTER_UNITS = 20000` (config.py). -/
def TOTAL_SHELTER_UNITS : Nat := 20000

/-- Income levels (config.py). -/
def INCOME_HIGH : ℚ := 1

/-- Low income level (config.py). -/
def INCOME_LOW : ℚ := 1/2

/-- Economic threshold for rental affordability (config.py). -/
def RENTAL_ECONOMIC_THRESHOLD : ℚ := 1/2

/-- Minimum functionality score for non-functional services (config.py). -/
def MIN_SERVICE_FUNCTIONALITY : ℚ := 1/2

/-- Shelter activation schedule lookup, `config.get_shelter_activation`:
the schedule is `{1: 0.20, 2: 0.57, 3: 1.00}` and any step outside the
schedule reuses the value at the largest key (3). -/
def get_shelter_activation (step : Nat) : ℚ :=
  if step = 1 then 1/5
  else if step = 2 then 57/100
  else if step = 3 then 1
  else 1

/-- Evacuation limit lookup, `config.get_evacuation_limit`: the table is
`{1: 4000, 2: 16000, 3: float('inf')}` and any step outside the table
reuses the value at the largest key (3), which is infinite.  `none`
models `float('inf')`: every finite count compares below it. -/
def get_evacuation_limit (step : Nat) : Option Nat :=
  if step = 1 then some 4000
  else if step = 2 then some 16000
  else if step = 3 then none
  else none

/-- The five decision categories of `config.DECISION_WEIGHT_RANGES`,
in the insertion order of the Python dict. -/
inductive DecisionType where
  | initial_move_choice
  | job_market_decisions
  | return_decision_timing
  | leave_city_decision
  | shelter_preference_decision
deriving DecidableEq

/-- The list of all decision categories, in dict insertion order. -/
def DecisionType.all : List DecisionType :=
  [.initial_move_choice, .job_market_decisions, .return_decision_timing,
   .leave_city_decision, .shelter_preference_decision]

/-- Reference configuration `DECISION_WEIGHT_RANGES` from config.py: all
ranges are the degenerate interval `(0, 0)`. -/
def DECISION_WEIGHT_RANGES : List (DecisionType × (ℚ × ℚ)) :=
  DecisionType.all.map (fun d => (d, ((0 : ℚ), (0 : ℚ))))

/-! ## stochastic_manager.py -/

/-- State of `StochasticDecisionManager`: the aggregate counters, the
per-category weight map (`decision_weights`) and the per-category
statistics map (`decision_stats`, as pairs of total and stochastic
counts).  Both maps are total on the category enumeration because the
source builds `decision_stats` with exactly the keys of
`decision_weights`; a category absent from `decision_weights` is
modelled by `weights` returning `none`. -/
structure StochState where
  target_cumulative : ℚ
  decisions_made : Nat
  stochastic_decisions : Nat
  decision_weights : DecisionType → Option ℚ
  decision_stats : DecisionType → Nat × Nat

/-- Embedding of `StochasticDecisionManager._generate_decision_weights`.
The uniform draw from each configured range is an explicit input
`draw lo hi` (the source calls `np.random.uniform(min_val, max_val)`),
so one run of the generator corresponds to one choice of draw values.
When the drawn weights sum to zero the source computes
`target / 0.0` on a NumPy float, producing `inf`, and each weight
`0 * inf` is then NaN; the rational embedding returns `none` in that
case because no well-defined number results. -/
def generate_decision_weights (target_cumulative : ℚ)
    (weight_ranges : List (DecisionType × (ℚ × ℚ)))
    (draw : ℚ → ℚ → ℚ) : Option (List (DecisionType × ℚ)) :=
  let random_weights := weight_ranges.map (fun p => (p.1, draw p.2.1 p.2.2))
  let total_weight := (random_weights.map (fun p => p.2)).sum
  if total_weight = 0 then none
  else
    let scale_factor := target_cumulative / total_weight
    some (random_weights.map (fun p => (p.1, p.2 * scale_factor)))

/-- Embedding of `StochasticDecisionManager.should_apply_stochasticity`.
The uniform draw `u` is the explicit value returned by the source's
`random.random()` call (so `0 ≤ u < 1` for real executions).  Returns
the boolean decision together with the updated manager state. -/
def should_apply_stochasticity (s : StochState) (decision_type : DecisionType)
    (u : ℚ) : Bool × StochState :=
  match s.decision_weights decision_type with
  | none => (false, s)
  | some base_prob =>
    let decisions_made := s.decisions_made + 1
    let stats1 := fun d => if d = decision_type
      then ((s.decision_stats d).1 + 1, (s.decision_stats d).2)
      else s.decision_stats d
    let current_rate : ℚ := (s.stochastic_decisions : ℚ) / (max 1 decisions_made : Nat)
    let probability : ℚ :=
      if s.target_cumulative ≤ current_rate then 0
      else min base_prob ((s.target_cumulative - current_rate) * 3)
    let apply_stochasticity := u < probability
    if apply_stochasticity then
      (true,
       { s with
         decisions_made := decisions_made
         stochastic_decisions := s.stochastic_decisions + 1
         decision_stats := fun d => if d = decision_type
           then ((stats1 d).1, (stats1 d).2 + 1)
           else stats1 d })
    else
      (false,
       { s with
         decisions_made := decisions_made
         decision_stats := stats1 })

/-! ## Data model (agent.py / model.py) -/

/-- Relocation statuses of the household state machine (`relocation_status`
string values in agent.py). -/
inductive Status where
  | original
  | shelter
  | rental
  | relative
  | new_building
  | return_back
  | stuck
  | left_city
  | return_from_outside
deriving DecidableEq

/-- Secondary status labels (`relocation_status_2` string values in
agent.py). -/
inductive Status2 where
  | renting
  | with_family
  | in_shelter
  | in_new_building
  | returned_home
  | prolonged_dissatisfaction
  | no_shelter_available
  | waiting_for_capacity
  | evacuated_after_stuck
deriving DecidableEq

/-- Service kinds used as the first component of keys of
`service_functionality_cache`. -/
inductive ServiceKind where
  | school
  | hospital
deriving DecidableEq

/-- Rental unit identifiers: the source builds the string
`f"{building_id}_{household_id}"`, modelled bijectively as the pair of
the two numbers. -/
abbrev RentalId := Nat × Nat

/-- Value stored in `model.rental_units`: the owning building and the
building coordinate (the `original_tenure`/`original_occupant_id`
fields are not read by any embedded operation). -/
structure RentalInfo where
  building_id : Nat
  coord : ℚ × ℚ
deriving DecidableEq

/-- Value stored in `model.new_buildings_info` for one new building
(the fields read by `move_to_new_building`). -/
structure NewBuildingInfo where
  id : Nat
  x_coord : ℚ
  y_coord : ℚ
deriving DecidableEq

/-- Snapshot of another household as seen through
`model.household_dict` by `can_move_to_relative` / `move_to_relative`:
its current coordinates and current building. -/
structure HouseholdView where
  x : ℚ
  y : ℚ
  b_id : Nat
deriving DecidableEq

/-- Mutable state of one `HouseholdAgent` (agent.py).  Fields that no
embedded operation reads or writes (the social network, land use label,
per-agent stochasticity log, job change history) are omitted. -/
structure Agent where
  coord : ℚ × ℚ
  original_coord : ℚ × ℚ
  b_id : Nat
  original_b_id : Nat
  r_id : Option Nat
  job_id : Nat
  original_job_id : Nat
  hospital_id : Nat
  original_hospital_id : Nat
  school_id : Nat
  original_school_id : Nat
  employment : ℚ
  original_employment : ℚ
  income : ℚ
  original_income : ℚ
  liquid : ℚ
  original_liquid : ℚ
  economic_score : ℚ
  dist_to_job : ℚ
  original_dist_to_job : ℚ
  dist_to_school : ℚ
  original_dist_to_school : ℚ
  dist_to_hospital : ℚ
  original_dist_to_hospital : ℚ
  satisfaction : ℚ
  relocation_status : Status
  relocation_status_2 : Option Status2
  relocation_history : List (Status × Nat)
  shelter_id : Option Nat
  months_in_shelter : Nat
  rental_unit_id : Option RentalId
  is_temporary_renter : Bool
  temporary_rental_original_owner : Option Nat
  new_building_id : Option Nat
  is_in_new_building : Bool
  moved_to_new_building : Bool
  months_low_satisfaction : Nat
  has_left_city : Bool
  left_city_month : Option Nat
  has_left_deterministically : Bool
  deterministic_departure_months : List Nat
  departure_location : Option (ℚ × ℚ)
  departure_status : Option Status
  departure_building_id : Option Nat
  has_ever_left_original : Bool
  eligible_for_high_income_jobs : Bool
  had_high_income_pre_disaster : Bool
  known_jobs : List Nat

/-- Mutable state of `DTRecoveryModel` (model.py), restricted to the
fields the embedded operations touch.  Months are identified with
naturals (the source uses month-name strings as keys).  Dictionaries
only read through `.get` become functions into `Option`; dictionaries
the source iterates over become association lists whose list order is
the dict iteration order; Python sets become duplicate-free lists whose
list order is the set iteration order.  `dist` abstracts the Euclidean
distance `np.linalg.norm(a - b)`; the source uses distances only in
order comparisons. -/
structure ModelState where
  current_month : Nat
  current_step : Nat
  dist : ℚ × ℚ → ℚ × ℚ → ℚ
  recovery_lookup : Nat → Nat → Option Nat
  job_functionality_cache : Nat → Option Nat
  new_job_functionality_cache : Nat → Option Nat
  service_functionality_cache : ServiceKind → Nat → Nat → Option ℚ
  new_building_lookup : Nat → Nat → Option Nat
  new_buildings_info : List (Nat × NewBuildingInfo)
  occupied_new_buildings : List Nat
  rental_units : List (RentalId × RentalInfo)
  available_rental_units : List RentalId
  occupied_rental_units : List RentalId
  temporary_rentals : List Nat
  household_dict : List (Nat × HouseholdView)
  new_jobs_income_is_high : List (Nat × Bool)
  occupied_jobs : List Nat
  shelter_coords : List (ℚ × ℚ)
  shelter_capacity : Nat → Nat
  shelter_occupancy : Nat → Int
  current_shelter_occupancy : Nat
  total_shelter_capacity : Nat
  monthly_evacuations : Nat → Nat
  left_city_total_departures : Nat
  left_city_total_returns : Nat
  school_coords_dict : List (Nat × (ℚ × ℚ))
  hospital_coords_dict : List (Nat × (ℚ × ℚ))
  max_service_distance : ℚ

/-- A single household paired with the shared model state: the unit on
which the agent-level operations of agent.py act. -/
structure Sim where
  model : ModelState
  agent : Agent

/-! ## model.py operations -/

/-- Insert an element into a list sorted by `key` (ascending), keeping
equal keys in first-come order.  Used to model the distance-ordered
index list returned by `cKDTree.query`. -/
def insertSorted (key : Nat → ℚ) (i : Nat) : List Nat → List Nat
  | [] => [i]
  | j :: rest =>
    if key i < key j then i :: j :: rest
    else j :: insertSorted key i rest

/-- Shelter indices ordered by distance from `c`, modelling the index
order returned by `self.shelter_kdtree.query(agent_coord, k=n)`.
Equal distances keep the index order, standing in for the KD-tree's
unspecified tie order. -/
def shelterQueryOrder (m : ModelState) (c : ℚ × ℚ) : List Nat :=
  (List.range m.shelter_coords.length).foldl
    (fun acc i => insertSorted (fun j => m.dist c (m.shelter_coords.getD j (0, 0))) i acc) []

/-- Embedding of `DTRecoveryModel.get_active_shelter_capacity`: the
Python `int(total * activation)` truncation equals the floor since the
product is non-negative.  The `month` argument is accepted and ignored
exactly as in the source, which reads `self.current_step`. -/
def get_active_shelter_capacity (m : ModelState) (month : Nat) : Nat :=
  (⌊(m.total_shelter_capacity : ℚ) * get_shelter_activation m.current_step⌋).toNat

/-- Scan loop of `find_shelter_for_agent`: take the first index in the
distance-ordered list whose occupancy is below its capacity, increment
that shelter's occupancy and the aggregate counter. -/
def shelterScan (m : ModelState) : List Nat → Option (Nat × (ℚ × ℚ)) × ModelState
  | [] => (none, m)
  | idx :: rest =>
    if m.shelter_occupancy idx < (m.shelter_capacity idx : Int) then
      (some (idx, m.shelter_coords.getD idx (0, 0)),
       { m with
         shelter_occupancy := fun j => if j = idx
           then m.shelter_occupancy idx + 1 else m.shelter_occupancy j
         current_shelter_occupancy := m.current_shelter_occupancy + 1 })
    else shelterScan m rest

/-- Embedding of `DTRecoveryModel.find_shelter_for_agent`: deny
immediately when the aggregate occupancy counter has reached the active
capacity; otherwise scan shelters in distance order for a slot with
room, mutating the occupancy state on success. -/
def find_shelter_for_agent (m : ModelState) (agent_coord : ℚ × ℚ) :
    Option (Nat × (ℚ × ℚ)) × ModelState :=
  let active_capacity := get_active_shelter_capacity m m.current_month
  if active_capacity ≤ m.current_shelter_occupancy then (none, m)
  else shelterScan m (shelterQueryOrder m agent_coord)

/-- Embedding of `DTRecoveryModel.can_evacuate_agent`: the month's
running count must be strictly below the step's limit; an infinite
limit (`none`) admits every request. -/
def can_evacuate_agent (m : ModelState) (month : Nat) : Bool :=
  match get_evacuation_limit m.current_step with
  | none => true
  | some limit => decide (m.monthly_evacuations month < limit)

/-- Embedding of `DTRecoveryModel.record_agent_evacuation`. -/
def record_agent_evacuation (m : ModelState) (month : Nat) : ModelState :=
  { m with monthly_evacuations := fun mo => if mo = month
      then m.monthly_evacuations month + 1 else m.monthly_evacuations mo }

/-- Dictionary lookup `self.rental_units[rental_id]` (referential
integrity of the ids in `available_rental_units` is a stated
precondition of the core, so the default is never reached on real
states). -/
def lookupRentalUnit (m : ModelState) (rid : RentalId) : RentalInfo :=
  (m.rental_units.lookup rid).getD ⟨0, (0, 0)⟩

/-- Scan loop of `find_available_rental_for_agent`: walk the available
list keeping the strictly closest unit seen so far (`best_distance`
starts at `float('inf')`, modelled by `none`). -/
def rentalScan (m : ModelState) (agent_coord : ℚ × ℚ) :
    List RentalId → Option (RentalId × (ℚ × ℚ)) → Option ℚ → Option (RentalId × (ℚ × ℚ))
  | [], best_rental, _ => best_rental
  | rid :: rest, best_rental, best_distance =>
    let unit_info := lookupRentalUnit m rid
    let distance := m.dist agent_coord unit_info.coord
    if (match best_distance with
        | none => true
        | some b => decide (distance < b)) then
      rentalScan m agent_coord rest (some (rid, unit_info.coord)) (some distance)
    else
      rentalScan m agent_coord rest best_rental best_distance

/-- Embedding of `DTRecoveryModel.find_available_rental_for_agent`:
return the available unit of minimal distance to the requester, first
occurrence winning ties, iterating the availability set in its list
order. -/
def find_available_rental_for_agent (m : ModelState) (agent_coord : ℚ × ℚ) :
    Option (RentalId × (ℚ × ℚ)) :=
  if m.available_rental_units = [] then none
  else rentalScan m agent_coord m.available_rental_units none none

/-- Embedding of `DTRecoveryModel.find_available_new_building`: first
unoccupied building, in dict insertion order, whose recovery flag for
the current month is 1. -/
def find_available_new_building (m : ModelState) : Option NewBuildingInfo :=
  (m.new_buildings_info.filter (fun p =>
    decide (p.1 ∉ m.occupied_new_buildings) &&
    decide ((m.new_building_lookup p.1 m.current_month).getD 0 = 1))).head?.map (fun p => p.2)

/-- Embedding of `DTRecoveryModel.handle_temporary_renter_departure`:
drop the owner key from `temporary_rentals` when it is set (Python
truthiness: `None` and `0` are both falsy) and present. -/
def handle_temporary_renter_departure (m : ModelState) (a : Agent) : ModelState :=
  if (a.temporary_rental_original_owner.getD 0) ≠ 0 then
    if (a.temporary_rental_original_owner.getD 0) ∈ m.temporary_rentals then
      { m with temporary_rentals :=
          m.temporary_rentals.erase (a.temporary_rental_original_owner.getD 0) }
    else m
  else m

/-- Add an element to a Python set modelled as a duplicate-free list
(`set.add`). -/
def setAdd {α : Type} [DecidableEq α] (x : α) (l : List α) : List α :=
  if x ∈ l then l else x :: l

/-! ## agent.py operations -/

/-- Embedding of `HouseholdAgent._leave_current_location`: release the
shelter slot when the status is `shelter` and a shelter id is held,
release the rental unit when the status is `rental` and a rental id is
held, terminate a temporary sublease, and release a held new building
(Python truthiness of the integer building id makes id `0` falsy). -/
def leave_current_location (s : Sim) : Sim :=
  let m := s.model
  let a := s.agent
  let (m, a) :=
    match a.relocation_status, a.shelter_id with
    | .shelter, some sid =>
      ({ m with shelter_occupancy := fun j => if j = sid
           then m.shelter_occupancy sid - 1 else m.shelter_occupancy j },
       { a with shelter_id := none })
    | _, _ => (m, a)
  let (m, a) :=
    match a.relocation_status, a.rental_unit_id with
    | .rental, some rid =>
      ({ m with occupied_rental_units := m.occupied_rental_units.erase rid,
                available_rental_units := setAdd rid m.available_rental_units },
       { a with rental_unit_id := none })
    | _, _ => (m, a)
  let (m, a) :=
    if a.is_temporary_renter then
      (handle_temporary_renter_departure m a,
       { a with is_temporary_renter := false, temporary_rental_original_owner := none })
    else (m, a)
  let (m, a) :=
    if a.is_in_new_building ∧ a.new_building_id.getD 0 ≠ 0 then
      ({ m with occupied_new_buildings :=
           m.occupied_new_buildings.erase (a.new_building_id.getD 0) },
       { a with new_building_id := none, is_in_new_building := false })
    else (m, a)
  ⟨m, a⟩

/-- Embedding of `HouseholdAgent._record_departure`. -/
def record_departure (s : Sim) : Sim :=
  { s with agent := { s.agent with
      departure_location := some s.agent.coord
      departure_status := some s.agent.relocation_status
      departure_building_id := some s.agent.b_id } }

/-- Embedding of `HouseholdAgent._update_service_distances`: when the
coordinate dictionaries are non-empty and contain the agent's service
id, recompute the normalized distance, capped at 1. -/
def update_service_distances (s : Sim) : Sim :=
  let a := s.agent
  let a :=
    if s.model.school_coords_dict ≠ [] then
      match s.model.school_coords_dict.lookup a.school_id with
      | some school_coord =>
        { a with dist_to_school :=
            (min 1 (s.model.dist a.coord school_coord / s.model.max_service_distance)) }
      | none => a
    else a
  let a :=
    if s.model.hospital_coords_dict ≠ [] then
      match s.model.hospital_coords_dict.lookup a.hospital_id with
      | some hospital_coord =>
        { a with dist_to_hospital :=
            (min 1 (s.model.dist a.coord hospital_coord / s.model.max_service_distance)) }
      | none => a
    else a
  { s with agent := a }

/-- Local `housing_func` of `calc_satisfaction_fast`:
`self.model.recovery_lookup.get((b_id, current_month), 1)` with `b_id`
selected by the `use_original_location` flag. -/
def satHousingFunc (s : Sim) (use_original_location : Bool) : Nat :=
  (s.model.recovery_lookup
    (if use_original_location then s.agent.original_b_id else s.agent.b_id)
    s.model.current_month).getD 1

/-- Local `job_func` of `calc_satisfaction_fast`:
`self.model.job_functionality_cache.get(self.job_id, 1)` (the current
job id is used for both locations, as in the source). -/
def satJobFunc (s : Sim) : Nat :=
  (s.model.job_functionality_cache s.agent.job_id).getD 1

/-- Local `employment_factor` of `calc_satisfaction_fast`. -/
def satEmploymentFactor (s : Sim) : ℚ :=
  if satJobFunc s = 1 then s.agent.employment else 0

/-- Local `work_condition` of `calc_satisfaction_fast`. -/
def satWorkCondition (s : Sim) (use_original_location : Bool) : ℚ :=
  (1 - (if use_original_location then s.agent.original_dist_to_job else s.agent.dist_to_job)) *
    satEmploymentFactor s

/-- Local `hospital_condition` of `calc_satisfaction_fast`: distance
term times the cached hospital functionality (defaulting to
`MIN_SERVICE_FUNCTIONALITY`). -/
def satHospitalCondition (s : Sim) (use_original_location : Bool) : ℚ :=
  (1 - (if use_original_location then s.agent.original_dist_to_hospital
        else s.agent.dist_to_hospital)) *
    ((s.model.service_functionality_cache .hospital
        (if use_original_location then s.agent.original_hospital_id else s.agent.hospital_id)
        s.model.current_month).getD MIN_SERVICE_FUNCTIONALITY)

/-- Local `school_condition` of `calc_satisfaction_fast`. -/
def satSchoolCondition (s : Sim) (use_original_location : Bool) : ℚ :=
  (1 - (if use_original_location then s.agent.original_dist_to_school
        else s.agent.dist_to_school)) *
    ((s.model.service_functionality_cache .school
        (if use_original_location then s.agent.original_school_id else s.agent.school_id)
        s.model.current_month).getD MIN_SERVICE_FUNCTIONALITY)

/-- Embedding of `HouseholdAgent.calc_satisfaction_fast`: multiplicative
score of housing functionality (binary, default 1), work condition
(distance times employment factor, the factor zeroed by job-building
non-functionality), and the two service conditions (distance times the
cached service functionality, default `MIN_SERVICE_FUNCTIONALITY`),
clamped to `[0, 1]`; the local variables of the Python function are the
named `sat…` helper definitions above. -/
def calc_satisfaction_fast (s : Sim) (use_original_location : Bool) : ℚ :=
  if satHousingFunc s use_original_location = 0 then 0
  else if satWorkCondition s use_original_location = 0 then 0
  else
    max 0 (min 1 ((satHousingFunc s use_original_location : ℚ) *
      satWorkCondition s use_original_location *
      satHospitalCondition s use_original_location *
      satSchoolCondition s use_original_location))

/-- Embedding of `HouseholdAgent.update_economic_status`. -/
def update_economic_status (s : Sim) : Sim :=
  let a := s.agent
  let m := s.model
  let job_func := (m.job_functionality_cache a.job_id).getD 1
  let a :=
    if job_func = 0 then { a with employment := 0, income := INCOME_LOW }
    else
      let income_is_high := (m.new_jobs_income_is_high.lookup a.job_id).getD false
      let income :=
        if income_is_high = true ∨ a.original_job_id = a.job_id then a.original_income
        else if income_is_high = true then INCOME_HIGH else INCOME_LOW
      { a with employment := a.original_employment, income := income }
  let a := { a with liquid := a.original_liquid }
  let a := { a with economic_score := a.employment * a.income * a.liquid }
  let a := { a with eligible_for_high_income_jobs :=
      a.had_high_income_pre_disaster &&
      (decide (a.income = INCOME_HIGH) ||
       (decide (a.original_income = INCOME_HIGH) && decide (a.income = INCOME_LOW))) }
  { s with agent := a }

/-- Embedding of `HouseholdAgent.become_stuck`. -/
def become_stuck (s : Sim) : Sim :=
  { s with agent := { s.agent with
      relocation_status := .stuck
      relocation_status_2 := some .waiting_for_capacity
      relocation_history :=
        s.agent.relocation_history ++ [(Status.stuck, s.model.current_month)] } }

/-- Embedding of `HouseholdAgent.move_to_rental`. -/
def move_to_rental (s : Sim) (rental_unit_id : RentalId) (building_coord : ℚ × ℚ) : Sim :=
  let s := leave_current_location s
  let m := s.model
  let a := { s.agent with rental_unit_id := some rental_unit_id, coord := building_coord }
  let unit_info := lookupRentalUnit m rental_unit_id
  let a := { a with b_id := unit_info.building_id }
  let m := { m with
    occupied_rental_units := setAdd rental_unit_id m.occupied_rental_units
    available_rental_units := m.available_rental_units.erase rental_unit_id }
  let a := { a with
    relocation_status := .rental
    relocation_status_2 := some .renting
    relocation_history := a.relocation_history ++ [(Status.rental, m.current_month)] }
  update_service_distances ⟨m, a⟩

/-- Embedding of `HouseholdAgent.can_move_to_relative`. -/
def can_move_to_relative (s : Sim) : Bool :=
  match s.agent.r_id with
  | none => false
  | some rid =>
    match s.model.household_dict.lookup rid with
    | none => false
    | some relative =>
      decide ((s.model.recovery_lookup relative.b_id s.model.current_month).getD 0 = 1)

/-- Embedding of `HouseholdAgent.move_to_relative` (only called under a
`can_move_to_relative` guard, which guarantees the dictionary lookups
succeed). -/
def move_to_relative (s : Sim) : Sim :=
  let s := leave_current_location s
  let relative := (s.model.household_dict.lookup (s.agent.r_id.getD 0)).getD ⟨0, 0, 0⟩
  let a := { s.agent with
    coord := (relative.x, relative.y)
    b_id := relative.b_id
    relocation_status := .relative
    relocation_status_2 := some .with_family
    relocation_history :=
      s.agent.relocation_history ++ [(Status.relative, s.model.current_month)] }
  update_service_distances ⟨s.model, a⟩

/-- Embedding of `HouseholdAgent.move_to_new_building`. -/
def move_to_new_building (s : Sim) (building_info : NewBuildingInfo) : Sim :=
  let s := leave_current_location s
  let building_id := building_info.id
  let a := { s.agent with
    new_building_id := some building_id
    is_in_new_building := true
    moved_to_new_building := true
    coord := (building_info.x_coord, building_info.y_coord)
    b_id := building_id }
  let m := { s.model with
    occupied_new_buildings := setAdd building_id s.model.occupied_new_buildings }
  let a := { a with
    relocation_status := .new_building
    relocation_status_2 := some .in_new_building
    relocation_history := a.relocation_history ++ [(Status.new_building, m.current_month)] }
  update_service_distances ⟨m, a⟩

/-- Embedding of `HouseholdAgent.return_to_original`. -/
def return_to_original (s : Sim) : Sim :=
  let s := leave_current_location s
  let a := { s.agent with
    coord := s.agent.original_coord
    b_id := s.agent.original_b_id
    dist_to_job := s.agent.original_dist_to_job
    dist_to_school := s.agent.original_dist_to_school
    dist_to_hospital := s.agent.original_dist_to_hospital
    school_id := s.agent.original_school_id
    hospital_id := s.agent.original_hospital_id
    relocation_status := .return_back
    relocation_status_2 := some .returned_home
    relocation_history :=
      s.agent.relocation_history ++ [(Status.return_back, s.model.current_month)] }
  ⟨s.model, a⟩

/-- Embedding of `HouseholdAgent.leave_city_deterministically`: record
the departure bookkeeping, then either become stuck when the monthly
evacuation quota denies admission, or record the evacuation, release
held resources and leave the city. -/
def leave_city_deterministically (s : Sim) : Sim :=
  let s := record_departure s
  if can_evacuate_agent s.model s.model.current_month = false then become_stuck s
  else
    let m := record_agent_evacuation s.model s.model.current_month
    let s := leave_current_location ⟨m, s.agent⟩
    let a := { s.agent with
      relocation_status := .left_city
      relocation_status_2 := some .prolonged_dissatisfaction
      has_left_city := true
      has_left_deterministically := true
      left_city_month := some s.model.current_month
      deterministic_departure_months :=
        s.agent.deterministic_departure_months ++ [s.model.current_month]
      coord := (0, 0) }
    let m := { s.model with
      left_city_total_departures := s.model.left_city_total_departures + 1 }
    ⟨m, { a with relocation_history :=
        a.relocation_history ++ [(Status.left_city, m.current_month)] }⟩

/-- Embedding of `HouseholdAgent.leave_city_due_to_no_shelter`. -/
def leave_city_due_to_no_shelter (s : Sim) : Sim :=
  let s := record_departure s
  if can_evacuate_agent s.model s.model.current_month = false then become_stuck s
  else
    let m := record_agent_evacuation s.model s.model.current_month
    let s := leave_current_location ⟨m, s.agent⟩
    let a := { s.agent with
      relocation_status := .left_city
      relocation_status_2 := some .no_shelter_available
      has_left_city := true
      left_city_month := some s.model.current_month
      coord := (0, 0) }
    let m := { s.model with
      left_city_total_departures := s.model.left_city_total_departures + 1 }
    ⟨m, { a with relocation_history :=
        a.relocation_history ++ [(Status.left_city, m.current_month)] }⟩

/-- Embedding of `HouseholdAgent.go_to_shelter`: ask the model for a
shelter slot (this already mutates the occupancy state on success);
with no slot, fall through to `leave_city_due_to_no_shelter`, otherwise
release the current location and occupy the slot. -/
def go_to_shelter (s : Sim) : Sim :=
  let r := find_shelter_for_agent s.model s.agent.coord
  match r.1 with
  | none => leave_city_due_to_no_shelter ⟨r.2, s.agent⟩
  | some (sid, shelter_coord) =>
    let s := leave_current_location ⟨r.2, s.agent⟩
    let a := { s.agent with
      shelter_id := some sid
      coord := shelter_coord
      relocation_status := .shelter
      relocation_status_2 := some .in_shelter
      months_in_shelter := 0
      relocation_history :=
        s.agent.relocation_history ++ [(Status.shelter, s.model.current_month)] }
    update_service_distances ⟨s.model, a⟩

/-- Embedding of `HouseholdAgent.decide_initial_move`: rental (when
affordable), then relative, then shelter. -/
def decide_initial_move (s : Sim) : Sim :=
  let s := { s with agent := { s.agent with has_ever_left_original := true } }
  let rentalOpt :=
    if RENTAL_ECONOMIC_THRESHOLD ≤ s.agent.economic_score then
      find_available_rental_for_agent s.model s.agent.coord
    else none
  match rentalOpt with
  | some (rid, coord) => move_to_rental s rid coord
  | none =>
    if can_move_to_relative s then move_to_relative s
    else go_to_shelter s

/-- Embedding of `HouseholdAgent.evaluate_options`: return home when
the original location is satisfying again, else rental, else new
building. -/
def evaluate_options (s : Sim) : Sim :=
  let original_sat := calc_satisfaction_fast s true
  if SATISFACTION_THRESHOLD ≤ original_sat then return_to_original s
  else
    let rentalOpt :=
      if RENTAL_ECONOMIC_THRESHOLD ≤ s.agent.economic_score then
        find_available_rental_for_agent s.model s.agent.coord
      else none
    match rentalOpt with
    | some (rid, coord) => move_to_rental s rid coord
    | none =>
      if s.model.new_buildings_info ≠ [] then
        match find_available_new_building s.model with
        | some nb => move_to_new_building s nb
        | none => s
      else s

/-- Embedding of `HouseholdAgent.handle_low_satisfaction`.  The forced
departure threshold `config.MONTHS_BEFORE_LEAVE_CITY` is `None` in the
reference configuration; the Python comparison
`self.months_low_satisfaction >= config.MONTHS_BEFORE_LEAVE_CITY`
raises `TypeError` when the threshold is `None`, modelled by the
`Except` error. -/
def handle_low_satisfaction (months_before_leave_city : Option Nat) (s : Sim) :
    Except Unit Sim :=
  match months_before_leave_city with
  | none => .error ()
  | some t =>
    if t ≤ s.agent.months_low_satisfaction ∧ s.agent.has_left_deterministically = false then
      .ok (leave_city_deterministically s)
    else
      .ok (if s.agent.relocation_status = .original
           then decide_initial_move s else evaluate_options s)

/-- Embedding of `HouseholdAgent.handle_satisfied`. -/
def handle_satisfied (s : Sim) : Sim :=
  if s.agent.relocation_status = .shelter ∨ s.agent.relocation_status = .rental ∨
     s.agent.relocation_status = .relative then
    if SATISFACTION_THRESHOLD ≤ calc_satisfaction_fast s true then return_to_original s
    else s
  else s

/-- Embedding of `HouseholdAgent.try_to_get_unstuck`: first ask the
model for a shelter (already incrementing occupancy on success), then
enter `go_to_shelter`, which queries the model a second time; with no
shelter, attempt evacuation under the quota, else stay stuck. -/
def try_to_get_unstuck (s : Sim) : Sim :=
  let r := find_shelter_for_agent s.model s.agent.coord
  match r.1 with
  | some _ => go_to_shelter ⟨r.2, s.agent⟩
  | none =>
    if can_evacuate_agent r.2 r.2.current_month then
      let m := record_agent_evacuation r.2 r.2.current_month
      let a := { s.agent with
        relocation_status := .left_city
        relocation_status_2 := some .evacuated_after_stuck
        coord := (0, 0) }
      ⟨{ m with left_city_total_departures := m.left_city_total_departures + 1 }, a⟩
    else ⟨r.2, s.agent⟩

/-- Embedding of `HouseholdAgent.return_from_outside`. -/
def return_from_outside (s : Sim) : Sim :=
  let a := { s.agent with relocation_status := .return_from_outside }
  let m := { s.model with left_city_total_returns := s.model.left_city_total_returns + 1 }
  let s : Sim := ⟨m, a⟩
  if (s.model.recovery_lookup s.agent.original_b_id s.model.current_month).getD 0 = 1 then
    return_to_original s
  else decide_initial_move s

/-- Embedding of `HouseholdAgent.evaluate_return_from_outside`.  The
Python loop over the `known_jobs` set triggers the same action
(`return_from_outside`) on the first unoccupied functional known job,
so its effect equals an existence test over the set. -/
def evaluate_return_from_outside (s : Sim) : Sim :=
  let original_func :=
    (s.model.recovery_lookup s.agent.original_b_id s.model.current_month).getD 0
  if original_func = 1 ∧ SATISFACTION_THRESHOLD ≤ calc_satisfaction_fast s true then
    return_from_outside s
  else
    if s.model.new_jobs_income_is_high ≠ [] ∧
       s.agent.eligible_for_high_income_jobs = true then
      if s.agent.known_jobs.any (fun j =>
          decide (j ∉ s.model.occupied_jobs) &&
          decide ((s.model.new_job_functionality_cache j).getD 0 = 1)) then
        return_from_outside s
      else s
    else s

/-- Embedding of `HouseholdAgent.step`: refresh the economic status and
the satisfaction score, then dispatch on the relocation status; a low
satisfaction score increments the streak counter before
`handle_low_satisfaction` runs. -/
def agent_step (months_before_leave_city : Option Nat) (s : Sim) : Except Unit Sim :=
  let s := update_economic_status s
  let s := { s with agent := { s.agent with satisfaction := calc_satisfaction_fast s false } }
  if s.agent.relocation_status = .left_city then .ok (evaluate_return_from_outside s)
  else if s.agent.relocation_status = .stuck then .ok (try_to_get_unstuck s)
  else if s.agent.satisfaction < SATISFACTION_THRESHOLD then
    handle_low_satisfaction months_before_leave_city
      { s with agent := { s.agent with
          months_low_satisfaction := s.agent.months_low_satisfaction + 1 } }
  else
    .ok (handle_satisfied { s with agent := { s.agent with months_low_satisfaction := 0 } })

/-! ## Concrete base states used by witnesses and counterexamples -/

/-- Squared Euclidean distance, the concrete representative of the
abstract distance function: it induces the same order comparisons as
`np.linalg.norm`. -/
def sqDist (p q : ℚ × ℚ) : ℚ := (p.1 - q.1) ^ 2 + (p.2 - q.2) ^ 2

/-- A household in its freshly initialized state (the constructor of
`HouseholdAgent` with neutral attribute values). -/
def baseAgent : Agent where
  coord := (0, 0)
  original_coord := (0, 0)
  b_id := 1
  original_b_id := 1
  r_id := none
  job_id := 1
  original_job_id := 1
  hospital_id := 1
  original_hospital_id := 1
  school_id := 1
  original_school_id := 1
  employment := 1
  original_employment := 1
  income := 1
  original_income := 1
  liquid := 1
  original_liquid := 1
  economic_score := 1
  dist_to_job := 0
  original_dist_to_job := 0
  dist_to_school := 0
  original_dist_to_school := 0
  dist_to_hospital := 0
  original_dist_to_hospital := 0
  satisfaction := 0
  relocation_status := .original
  relocation_status_2 := none
  relocation_history := []
  shelter_id := none
  months_in_shelter := 0
  rental_unit_id := none
  is_temporary_renter := false
  temporary_rental_original_owner := none
  new_building_id := none
  is_in_new_building := false
  moved_to_new_building := false
  months_low_satisfaction := 0
  has_left_city := false
  left_city_month := none
  has_left_deterministically := false
  deterministic_departure_months := []
  departure_location := none
  departure_status := none
  departure_building_id := none
  has_ever_left_original := false
  eligible_for_high_income_jobs := false
  had_high_income_pre_disaster := true
  known_jobs := []

/-- A minimal model state: step 1, no resources, empty lookup tables. -/
def baseModel : ModelState where
  current_month := 1
  current_step := 1
  dist := sqDist
  recovery_lookup := fun _ _ => none
  job_functionality_cache := fun _ => none
  new_job_functionality_cache := fun _ => none
  service_functionality_cache := fun _ _ _ => none
  new_building_lookup := fun _ _ => none
  new_buildings_info := []
  occupied_new_buildings := []
  rental_units := []
  available_rental_units := []
  occupied_rental_units := []
  temporary_rentals := []
  household_dict := []
  new_jobs_income_is_high := []
  occupied_jobs := []
  shelter_coords := []
  shelter_capacity := fun _ => DEFAULT_SHELTER_CAPACITY
  shelter_occupancy := fun _ => 0
  current_shelter_occupancy := 0
  total_shelter_capacity := 0
  monthly_evacuations := fun _ => 0
  left_city_total_departures := 0
  left_city_total_returns := 0
  school_coords_dict := []
  hospital_coords_dict := []
  max_service_distance := 1

/-! ## Claim C4: satisfaction range and zeroing conditions -/

/-- C4: for every household and every month, the computed satisfaction
score lies in `[0, 1]`, and it is exactly 0 whenever the housing
building's functionality flag is 0, or the household's employment flag
is 0, or the household's job building is non-functional that month
(both for the current and for the hypothetical original location). -/
theorem satisfaction_range_and_zero_conditions (s : Sim) (use_original_location : Bool) :
    (0 ≤ calc_satisfaction_fast s use_original_location ∧
      calc_satisfaction_fast s use_original_location ≤ 1) ∧
    (satHousingFunc s use_original_location = 0 →
      calc_satisfaction_fast s use_original_location = 0) ∧
    (s.agent.employment = 0 → calc_satisfaction_fast s use_original_location = 0) ∧
    (satJobFunc s = 0 → calc_satisfaction_fast s use_original_location = 0) := by
  refine ⟨?_, ?_, ?_, ?_⟩
  · unfold calc_satisfaction_fast
    split
    · norm_num
    · split
      · norm_num
      · exact ⟨le_max_left 0 _, max_le (by norm_num) (min_le_left 1 _)⟩
  · intro h
    unfold calc_satisfaction_fast
    rw [if_pos h]
  · intro h
    have hw : satWorkCondition s use_original_location = 0 := by
      simp only [satWorkCondition, satEmploymentFactor, h, ite_self, mul_zero]
    unfold calc_satisfaction_fast
    rw [hw]
    simp
  · intro h
    have hef : satEmploymentFactor s = 0 := by
      simp [satEmploymentFactor, h]
    have hw : satWorkCondition s use_original_location = 0 := by
      simp only [satWorkCondition, hef, mul_zero]
    unfold calc_satisfaction_fast
    rw [hw]
    simp

/-- Witness for C4: an unemployed household's satisfaction evaluates to
exactly 0 on a concrete state. -/
theorem satisfaction_range_and_zero_conditions_witness :
    calc_satisfaction_fast ⟨baseModel, { baseAgent with employment := 0 }⟩ false = 0 :=
  (satisfaction_range_and_zero_conditions
    ⟨baseModel, { baseAgent with employment := 0 }⟩ false).2.2.1 rfl

/-! ## Claim C6: the stochastic decision operation -/

/-- C6: for every call of `should_apply_stochasticity` with a known
category: the total and the per-category total counters are
incremented; with the live aggregate rate computed after incrementing
the total, the call returns `false` when that rate is at least the
target; otherwise it returns `true` exactly when the uniform draw falls
below `min (category weight) (3 * (target - rate))`; and the aggregate
and per-category stochastic counters are incremented exactly when the
call returns `true`. -/
theorem should_apply_stochasticity_spec (s : StochState) (decision_type : DecisionType)
    (u w rate : ℚ) (b : Bool) (s2 : StochState)
    (hw : s.decision_weights decision_type = some w) (hu : 0 ≤ u)
    (hrate : rate = (s.stochastic_decisions : ℚ) / ((max 1 (s.decisions_made + 1) : Nat) : ℚ))
    (hres : should_apply_stochasticity s decision_type u = (b, s2)) :
    s2.decisions_made = s.decisions_made + 1 ∧
    (s2.decision_stats decision_type).1 = (s.decision_stats decision_type).1 + 1 ∧
    (∀ d, d ≠ decision_type → s2.decision_stats d = s.decision_stats d) ∧
    (s.target_cumulative ≤ rate → b = false) ∧
    (rate < s.target_cumulative →
      (b = true ↔ u < min w (3 * (s.target_cumulative - rate)))) ∧
    s2.stochastic_decisions = s.stochastic_decisions + (if b = true then 1 else 0) ∧
    (s2.decision_stats decision_type).2 =
      (s.decision_stats decision_type).2 + (if b = true then 1 else 0) := by
  simp only [should_apply_stochasticity, hw] at hres
  rw [← hrate] at hres
  by_cases hts : s.target_cumulative ≤ rate
  · rw [if_pos hts, if_neg (not_lt.mpr hu)] at hres
    injection hres with hb hs
    subst hb
    subst hs
    refine ⟨rfl, by simp, fun d hd => by simp [hd], fun _ => rfl, ?_, by simp, by simp⟩
    intro hlt
    exact absurd hts (not_le.mpr hlt)
  · rw [if_neg hts] at hres
    by_cases hu2 : u < min w ((s.target_cumulative - rate) * 3)
    · rw [if_pos hu2] at hres
      injection hres with hb hs
      subst hb
      subst hs
      refine ⟨rfl, by simp, fun d hd => by simp [hd], fun h => absurd h hts, ?_,
        by simp, by simp⟩
      intro _
      constructor
      · intro _
        rw [mul_comm (3 : ℚ)]
        exact hu2
      · intro _
        rfl
    · rw [if_neg hu2] at hres
      injection hres with hb hs
      subst hb
      subst hs
      refine ⟨rfl, by simp, fun d hd => by simp [hd], fun _ => rfl, ?_, by simp, by simp⟩
      intro _
      constructor
      · intro hfalse
        exact absurd hfalse (by simp)
      · intro hcon
        rw [mul_comm (3 : ℚ)] at hcon
        exact absurd hcon hu2

/-- A concrete stochastic manager state: target rate 1/10, one category
configured with weight 1/100, fresh counters. -/
def baseStoch : StochState where
  target_cumulative := TARGET_STOCHASTICITY
  decisions_made := 0
  stochastic_decisions := 0
  decision_weights := fun _ => some (1/100)
  decision_stats := fun _ => (0, 0)

/-- Witness for C6: on a fresh manager the first decision increments
the total decision counter to 1. -/
theorem should_apply_stochasticity_spec_witness :
    (should_apply_stochasticity baseStoch .initial_move_choice 0).2.decisions_made =
      baseStoch.decisions_made + 1 :=
  (should_apply_stochasticity_spec baseStoch .initial_move_choice 0 (1/100) 0 _ _
    rfl le_rfl (by norm_num [baseStoch]) rfl).1

/-! ## Claim C7: weight generation (corrected) -/

/-- Counterexample for C7: under the reference configuration all weight
ranges are `(0, 0)`, so every uniform draw is exactly 0, the drawn
weights sum to 0, and the rescaling divides by zero — the generator
yields no well-defined weight assignment (in the NumPy execution the
scale factor is `inf` and each weight is NaN), so the weights do not
sum to the target. -/
theorem generate_decision_weights_reference_config_undefined :
    generate_decision_weights TARGET_STOCHASTICITY DECISION_WEIGHT_RANGES
      (fun lo _ => lo) = none := by
  norm_num [generate_decision_weights, DECISION_WEIGHT_RANGES, DecisionType.all]

/-- Sum of the second components after rescaling each second component
by a constant factor. -/
theorem sum_map_snd_scale {α : Type} (l : List (α × ℚ)) (c : ℚ) :
    ((l.map (fun p => (p.1, p.2 * c))).map (fun p => p.2)).sum =
      ((l.map (fun p => p.2)).sum) * c := by
  induction l with
  | nil => simp
  | cons x xs ih =>
    simp only [List.map_map, Function.comp_def] at ih ⊢
    simp [ih, add_mul]

/-- C7 (amended): whenever the weights drawn from the configured ranges
have non-zero total, the rescaled per-category weights are well-defined
and sum exactly to the target cumulative stochasticity rate; under the
reference configuration the drawn total is 0 and no well-defined
weights result. -/
theorem generate_decision_weights_sum_eq_target (target : ℚ)
    (weight_ranges : List (DecisionType × (ℚ × ℚ))) (draw : ℚ → ℚ → ℚ)
    (h : ((weight_ranges.map (fun p => (p.1, draw p.2.1 p.2.2))).map
      (fun p => p.2)).sum ≠ 0) :
    ∃ ws, generate_decision_weights target weight_ranges draw = some ws ∧
      (ws.map (fun p => p.2)).sum = target := by
  unfold generate_decision_weights
  rw [if_neg h]
  refine ⟨_, rfl, ?_⟩
  rw [sum_map_snd_scale, mul_comm]
  exact div_mul_cancel₀ target h

/-- Witness for C7: with one category drawing weight 1/20 the rescaled
weights sum to the target 1/10. -/
theorem generate_decision_weights_sum_eq_target_witness :
    ∃ ws, generate_decision_weights TARGET_STOCHASTICITY
        [(DecisionType.initial_move_choice, ((1 : ℚ)/20, (1 : ℚ)/20))]
        (fun lo _ => lo) = some ws ∧
      (ws.map (fun p => p.2)).sum = TARGET_STOCHASTICITY :=
  generate_decision_weights_sum_eq_target TARGET_STOCHASTICITY
    [(DecisionType.initial_move_choice, ((1 : ℚ)/20, (1 : ℚ)/20))]
    (fun lo _ => lo) (by norm_num)

/-! ## Claim C8: determinism of the nearest-rental selection -/

/-- Distance from the requester to a rental unit: the value the scan
loop of `find_available_rental_for_agent` compares. -/
def rentalKey (m : ModelState) (c : ℚ × ℚ) (rid : RentalId) : ℚ :=
  m.dist c (lookupRentalUnit m rid).coord

/-- The scan loop started from a best candidate `r0` returns a unit of
minimal distance among `r0` and the remaining list, the earlier
occurrence winning ties. -/
theorem rentalScan_min (m : ModelState) (c : ℚ × ℚ) :
    ∀ (l : List RentalId) (r0 : RentalId),
    ∃ r, rentalScan m c l (some (r0, (lookupRentalUnit m r0).coord))
        (some (rentalKey m c r0)) = some (r, (lookupRentalUnit m r).coord) ∧
      (r = r0 ∨ r ∈ l) ∧ rentalKey m c r ≤ rentalKey m c r0 ∧
      ∀ x ∈ l, rentalKey m c r ≤ rentalKey m c x := by
  intro l
  induction l with
  | nil => exact fun r0 => ⟨r0, rfl, Or.inl rfl, le_rfl, by simp⟩
  | cons rid rest ih =>
    intro r0
    by_cases h : rentalKey m c rid < rentalKey m c r0
    · have step : rentalScan m c (rid :: rest)
          (some (r0, (lookupRentalUnit m r0).coord)) (some (rentalKey m c r0)) =
          rentalScan m c rest (some (rid, (lookupRentalUnit m rid).coord))
            (some (rentalKey m c rid)) := by
        have h2 : m.dist c (lookupRentalUnit m rid).coord < rentalKey m c r0 := h
        simp only [rentalScan]
        rw [if_pos (decide_eq_true h2)]
        rfl
      obtain ⟨r, hr, hmem, hle, hall⟩ := ih rid
      refine ⟨r, step.trans hr, ?_, ?_, ?_⟩
      · rcases hmem with h1 | h1
        · exact Or.inr (h1 ▸ List.mem_cons_self rid rest)
        · exact Or.inr (List.mem_cons_of_mem rid h1)
      · exact hle.trans h.le
      · intro x hx
        rcases List.mem_cons.mp hx with h1 | h1
        · exact h1 ▸ hle
        · exact hall x h1
    · have step : rentalScan m c (rid :: rest)
          (some (r0, (lookupRentalUnit m r0).coord)) (some (rentalKey m c r0)) =
          rentalScan m c rest (some (r0, (lookupRentalUnit m r0).coord))
            (some (rentalKey m c r0)) := by
        have h2 : ¬ m.dist c (lookupRentalUnit m rid).coord < rentalKey m c r0 := h
        simp only [rentalScan]
        rw [if_neg (by simpa using h2)]
      obtain ⟨r, hr, hmem, hle, hall⟩ := ih r0
      refine ⟨r, step.trans hr, ?_, hle, ?_⟩
      · rcases hmem with h1 | h1
        · exact Or.inl h1
        · exact Or.inr (List.mem_cons_of_mem rid h1)
      · intro x hx
        rcases List.mem_cons.mp hx with h1 | h1
        · exact h1 ▸ hle.trans (not_lt.mp h)
        · exact hall x h1

/-- The nearest-available-rental query returns a unit of minimal
distance among the available units, the earliest list occurrence
winning ties. -/
theorem find_available_rental_min (m : ModelState) (c : ℚ × ℚ)
    (hne : m.available_rental_units ≠ []) :
    ∃ r, find_available_rental_for_agent m c = some (r, (lookupRentalUnit m r).coord) ∧
      r ∈ m.available_rental_units ∧
      ∀ x ∈ m.available_rental_units, rentalKey m c r ≤ rentalKey m c x := by
  obtain ⟨rid, rest, hl⟩ := List.exists_cons_of_ne_nil hne
  unfold find_available_rental_for_agent
  rw [if_neg hne, hl]
  have step : rentalScan m c (rid :: rest) none none =
      rentalScan m c rest (some (rid, (lookupRentalUnit m rid).coord))
        (some (rentalKey m c rid)) := by
    simp only [rentalScan]
    rw [if_pos trivial]
    rfl
  obtain ⟨r, hr, hmem, hle, hall⟩ := rentalScan_min m c rest rid
  refine ⟨r, step.trans hr, ?_, ?_⟩
  · rcases hmem with h1 | h1
    · exact h1 ▸ List.mem_cons_self rid rest
    · exact List.mem_cons_of_mem rid h1
  · intro x hx
    rcases List.mem_cons.mp hx with h1 | h1
    · exact h1 ▸ hle
    · exact hall x h1

/-- C8 (amended): the nearest-rental selection is a function of the
inputs alone — independent of the incidental iteration order of the
availability set — provided no two available units are equidistant from
the requester; two model states agreeing on the rental pool and the
distance function, whose availability sets are permutations of one
another, yield the same allocation.  (The counterexample theorem shows
the restriction is needed: on a distance tie the selection follows the
set-iteration order, which the seed and inputs do not determine.) -/
theorem find_rental_independent_of_iteration_order (m₁ m₂ : ModelState) (c : ℚ × ℚ)
    (hru : m₂.rental_units = m₁.rental_units) (hd : m₂.dist = m₁.dist)
    (hperm : m₁.available_rental_units.Perm m₂.available_rental_units)
    (hinj : ∀ r ∈ m₁.available_rental_units, ∀ t ∈ m₁.available_rental_units,
      rentalKey m₁ c r = rentalKey m₁ c t → r = t) :
    find_available_rental_for_agent m₁ c = find_available_rental_for_agent m₂ c := by
  have hkey : ∀ r, rentalKey m₂ c r = rentalKey m₁ c r := by
    intro r
    simp [rentalKey, lookupRentalUnit, hru, hd]
  have hlookup : ∀ r, lookupRentalUnit m₂ r = lookupRentalUnit m₁ r := by
    intro r
    simp [lookupRentalUnit, hru]
  by_cases hne : m₁.available_rental_units = []
  · have hne2 : m₂.available_rental_units = [] := by
      rw [hne] at hperm
      exact hperm.symm.eq_nil
    unfold find_available_rental_for_agent
    rw [if_pos hne, if_pos hne2]
  · have hne2 : m₂.available_rental_units ≠ [] := by
      intro h
      rw [h] at hperm
      exact hne hperm.eq_nil
    obtain ⟨r1, hr1, hm1, hall1⟩ := find_available_rental_min m₁ c hne
    obtain ⟨r2, hr2, hm2, hall2⟩ := find_available_rental_min m₂ c hne2
    have hm21 : r2 ∈ m₁.available_rental_units := hperm.mem_iff.mpr hm2
    have hm12 : r1 ∈ m₂.available_rental_units := hperm.mem_iff.mp hm1
    have h12 : rentalKey m₁ c r1 ≤ rentalKey m₁ c r2 := hall1 r2 hm21
    have h21 : rentalKey m₁ c r2 ≤ rentalKey m₁ c r1 := by
      have := hall2 r1 hm12
      rw [hkey, hkey] at this
      exact this
    have : r1 = r2 := hinj r1 hm1 r2 hm21 (le_antisymm h12 h21)
    rw [hr1, hr2, this, hlookup]

/-- Two-rental model with both units at distance 1 from the origin:
unit (1,1) owned by building 1 to the east, unit (2,2) owned by
building 2 to the west. -/
def tieModelA : ModelState :=
  { baseModel with
    rental_units := [((1, 1), ⟨1, (1, 0)⟩), ((2, 2), ⟨2, (-1, 0)⟩)]
    available_rental_units := [(1, 1), (2, 2)] }

/-- The same model with the availability set iterated in the opposite
order. -/
def tieModelB : ModelState :=
  { tieModelA with available_rental_units := [(2, 2), (1, 1)] }

/-- Counterexample for C8: two states identical in rental pool,
distance function and availability set (one a permutation of the
other) allocate different rental units to a requester equidistant from
both, so the allocation is not a function of the seed and inputs alone:
it depends on the incidental iteration order of the availability set. -/
theorem find_rental_tie_depends_on_iteration_order :
    tieModelA.rental_units = tieModelB.rental_units ∧
    tieModelA.dist = tieModelB.dist ∧
    tieModelA.available_rental_units.Perm tieModelB.available_rental_units ∧
    find_available_rental_for_agent tieModelA (0, 0) = some ((1, 1), (1, 0)) ∧
    find_available_rental_for_agent tieModelB (0, 0) = some ((2, 2), (-1, 0)) := by
  refine ⟨rfl, rfl, ?_, ?_, ?_⟩
  · exact List.Perm.swap (2, 2) (1, 1) []
  · norm_num [find_available_rental_for_agent, rentalScan, lookupRentalUnit,
      List.lookup, beq_eq_decide, tieModelA, baseModel, sqDist]
    intro h
    simp at h
  · norm_num [find_available_rental_for_agent, rentalScan, lookupRentalUnit,
      List.lookup, beq_eq_decide, tieModelB, tieModelA, baseModel, sqDist]
    intro h
    simp at h

/-- Distinct-distance model: the two units are at distances 1 and 4. -/
def nearModelA : ModelState :=
  { baseModel with
    rental_units := [((1, 1), ⟨1, (1, 0)⟩), ((2, 2), ⟨2, (2, 0)⟩)]
    available_rental_units := [(1, 1), (2, 2)] }

/-- The distinct-distance model with reversed availability order. -/
def nearModelB : ModelState :=
  { nearModelA with available_rental_units := [(2, 2), (1, 1)] }

/-- Witness for the amended C8 theorem: with distinct distances the two
iteration orders produce the same allocation. -/
theorem find_rental_independent_of_iteration_order_witness :
    find_available_rental_for_agent nearModelA (0, 0) =
      find_available_rental_for_agent nearModelB (0, 0) := by
  refine find_rental_independent_of_iteration_order nearModelA nearModelB (0, 0)
    rfl rfl (List.Perm.swap (2, 2) (1, 1) []) ?_
  intro r hr t ht
  fin_cases hr <;> fin_cases ht <;>
    norm_num [rentalKey, lookupRentalUnit, List.lookup, beq_eq_decide, nearModelA,
      baseModel, sqDist]

/-! ## Claim C9: termination of the per-household decision step -/

/-- With a numeric threshold, `handle_low_satisfaction` returns a
defined state on every input. -/
theorem handle_low_satisfaction_total (t : Nat) (s : Sim) :
    ∃ s2, handle_low_satisfaction (some t) s = Except.ok s2 := by
  show ∃ s2, (if t ≤ s.agent.months_low_satisfaction ∧
      s.agent.has_left_deterministically = false
    then Except.ok (leave_city_deterministically s)
    else Except.ok (if s.agent.relocation_status = Status.original
      then decide_initial_move s else evaluate_options s)) = Except.ok s2
  split
  · exact ⟨_, rfl⟩
  · exact ⟨_, rfl⟩

/-- C9 (amended): when the forced-departure threshold
`MONTHS_BEFORE_LEAVE_CITY` is configured as a number, the per-household
decision step always terminates in a defined state: every branch of the
embedded `HouseholdAgent.step` produces a result and resource scarcity
is ordinary control flow. -/
theorem agent_step_total_with_configured_threshold (t : Nat) (s : Sim) :
    ∃ s2, agent_step (some t) s = Except.ok s2 := by
  simp only [agent_step]
  split
  · exact ⟨_, rfl⟩
  · split
    · exact ⟨_, rfl⟩
    · split
      · exact handle_low_satisfaction_total t _
      · exact ⟨_, rfl⟩

/-- Model whose recovery table marks every building non-functional:
the household's satisfaction evaluates to 0. -/
def lowSatModel : ModelState :=
  { baseModel with recovery_lookup := fun _ _ => some 0 }

/-- The economic-status refresh touches neither the model, nor the
relocation status, nor the building reference of the household. -/
theorem update_economic_status_preserves (s : Sim) :
    (update_economic_status s).model = s.model ∧
    (update_economic_status s).agent.relocation_status = s.agent.relocation_status ∧
    (update_economic_status s).agent.b_id = s.agent.b_id ∧
    (update_economic_status s).agent.original_b_id = s.agent.original_b_id ∧
    (update_economic_status s).agent.shelter_id = s.agent.shelter_id := by
  simp only [update_economic_status]
  split <;> simp

/-- With the threshold unset (`None`), the decision step of a household
that is neither outside the city nor stuck and whose recomputed
satisfaction is below the threshold reaches the Python comparison
`months_low_satisfaction >= None` and errors. -/
theorem agent_step_none_errors (s : Sim)
    (h1 : s.agent.relocation_status ≠ .left_city)
    (h2 : s.agent.relocation_status ≠ .stuck)
    (h3 : calc_satisfaction_fast (update_economic_status s) false <
      SATISFACTION_THRESHOLD) :
    agent_step none s = Except.error () := by
  have hp := update_economic_status_preserves s
  unfold agent_step
  have hc1 : ¬ ((update_economic_status s).agent.relocation_status = Status.left_city) := by
    rw [hp.2.1]
    exact h1
  have hc2 : ¬ ((update_economic_status s).agent.relocation_status = Status.stuck) := by
    rw [hp.2.1]
    exact h2
  rw [if_neg hc1, if_neg hc2, if_pos h3]
  rfl

/-- Counterexample for C9: under the reference configuration
(`MONTHS_BEFORE_LEAVE_CITY = None`) a household whose satisfaction
falls below the threshold reaches the comparison
`months_low_satisfaction >= None`, which raises `TypeError` — the
decision step does not terminate in a defined status. -/
theorem agent_step_reference_config_raises :
    agent_step none ⟨lowSatModel, baseAgent⟩ = Except.error () := by
  have hp := update_economic_status_preserves ⟨lowSatModel, baseAgent⟩
  have hh : satHousingFunc (update_economic_status ⟨lowSatModel, baseAgent⟩) false = 0 := by
    unfold satHousingFunc
    rw [hp.1, hp.2.2.1]
    simp [lowSatModel, baseModel]
  have hz : calc_satisfaction_fast (update_economic_status ⟨lowSatModel, baseAgent⟩)
      false = 0 := by
    unfold calc_satisfaction_fast
    rw [if_pos hh]
  refine agent_step_none_errors _ ?_ ?_ ?_
  · simp [baseAgent]
  · simp [baseAgent]
  · rw [hz, SATISFACTION_THRESHOLD]
    norm_num

/-! ## Claim C3: evacuation quota admission -/

/-- The pointwise counter update performed by
`record_agent_evacuation`. -/
def bumpAt (f : Nat → Nat) (k : Nat) : Nat → Nat :=
  fun mo => if mo = k then f k + 1 else f mo

/-- Outcome of the shelter scan loop: either no slot had room and the
model is unchanged, or the first fitting slot's occupancy and the
aggregate counter are incremented. -/
theorem shelterScan_spec (m : ModelState) (l : List Nat) :
    ((shelterScan m l).1 = none ∧ (shelterScan m l).2 = m) ∨
    (∃ idx, (shelterScan m l).1 = some (idx, m.shelter_coords.getD idx (0, 0)) ∧
      m.shelter_occupancy idx < (m.shelter_capacity idx : Int) ∧
      (shelterScan m l).2 = { m with
        shelter_occupancy := fun j => if j = idx
          then m.shelter_occupancy idx + 1 else m.shelter_occupancy j
        current_shelter_occupancy := m.current_shelter_occupancy + 1 }) := by
  induction l with
  | nil => exact Or.inl ⟨rfl, rfl⟩
  | cons idx rest ih =>
    simp only [shelterScan]
    split
    case isTrue h => exact Or.inr ⟨idx, rfl, h, rfl⟩
    case isFalse h => exact ih

/-- Outcome of `find_shelter_for_agent`: either a denial leaving the
model unchanged, or (only when the aggregate counter is strictly below
the step's active capacity) a grant incrementing one slot's occupancy
and the aggregate counter. -/
theorem find_shelter_spec (m : ModelState) (c : ℚ × ℚ) :
    ((find_shelter_for_agent m c).1 = none ∧ (find_shelter_for_agent m c).2 = m) ∨
    (m.current_shelter_occupancy < get_active_shelter_capacity m m.current_month ∧
      ∃ idx, (find_shelter_for_agent m c).1 = some (idx, m.shelter_coords.getD idx (0, 0)) ∧
        m.shelter_occupancy idx < (m.shelter_capacity idx : Int) ∧
        (find_shelter_for_agent m c).2 = { m with
          shelter_occupancy := fun j => if j = idx
            then m.shelter_occupancy idx + 1 else m.shelter_occupancy j
          current_shelter_occupancy := m.current_shelter_occupancy + 1 }) := by
  simp only [find_shelter_for_agent]
  split
  case isTrue h => exact Or.inl ⟨rfl, rfl⟩
  case isFalse h =>
    rcases shelterScan_spec m (shelterQueryOrder m c) with h1 | ⟨idx, h1, h2, h3⟩
    · exact Or.inl h1
    · exact Or.inr ⟨not_le.mp h, idx, h1, h2, h3⟩

/-- Releasing the current location touches neither the month/step
bookkeeping, nor the evacuation counters, nor the aggregate shelter
counter, the capacities or the departure tally. -/
theorem leave_current_location_model_spec (s : Sim) :
    (leave_current_location s).model.monthly_evacuations = s.model.monthly_evacuations ∧
    (leave_current_location s).model.current_month = s.model.current_month ∧
    (leave_current_location s).model.current_step = s.model.current_step ∧
    (leave_current_location s).model.current_shelter_occupancy =
      s.model.current_shelter_occupancy ∧
    (leave_current_location s).model.total_shelter_capacity =
      s.model.total_shelter_capacity ∧
    (leave_current_location s).model.shelter_capacity = s.model.shelter_capacity ∧
    (leave_current_location s).model.left_city_total_departures =
      s.model.left_city_total_departures := by
  simp only [leave_current_location, handle_temporary_renter_departure]
  repeat' split
  all_goals simp

/-- Evacuation-counter effect of `leave_city_deterministically`: the
month's counter is bumped exactly when the quota admits the household,
and is untouched when the household becomes stuck instead. -/
theorem leave_city_deterministically_evac (s : Sim) :
    (can_evacuate_agent s.model s.model.current_month = false ∧
      (leave_city_deterministically s).model.monthly_evacuations =
        s.model.monthly_evacuations) ∨
    (can_evacuate_agent s.model s.model.current_month = true ∧
      (leave_city_deterministically s).model.monthly_evacuations =
        bumpAt s.model.monthly_evacuations s.model.current_month) := by
  simp only [leave_city_deterministically, record_departure]
  by_cases hc : can_evacuate_agent s.model s.model.current_month = false
  · left
    refine ⟨hc, ?_⟩
    rw [if_pos hc]
    simp [become_stuck]
  · right
    refine ⟨by revert hc; cases can_evacuate_agent s.model s.model.current_month <;> simp, ?_⟩
    rw [if_neg hc]
    have h1 := (leave_current_location_model_spec
      ⟨record_agent_evacuation s.model s.model.current_month,
        { s.agent with
          departure_location := some s.agent.coord
          departure_status := some s.agent.relocation_status
          departure_building_id := some s.agent.b_id }⟩).1
    simp only [] at h1 ⊢
    rw [h1]
    rfl

/-- Evacuation-counter effect of `leave_city_due_to_no_shelter`. -/
theorem leave_city_due_to_no_shelter_evac (s : Sim) :
    (can_evacuate_agent s.model s.model.current_month = false ∧
      (leave_city_due_to_no_shelter s).model.monthly_evacuations =
        s.model.monthly_evacuations) ∨
    (can_evacuate_agent s.model s.model.current_month = true ∧
      (leave_city_due_to_no_shelter s).model.monthly_evacuations =
        bumpAt s.model.monthly_evacuations s.model.current_month) := by
  simp only [leave_city_due_to_no_shelter, record_departure]
  by_cases hc : can_evacuate_agent s.model s.model.current_month = false
  · left
    refine ⟨hc, ?_⟩
    rw [if_pos hc]
    simp [become_stuck]
  · right
    refine ⟨by revert hc; cases can_evacuate_agent s.model s.model.current_month <;> simp, ?_⟩
    rw [if_neg hc]
    have h1 := (leave_current_location_model_spec
      ⟨record_agent_evacuation s.model s.model.current_month,
        { s.agent with
          departure_location := some s.agent.coord
          departure_status := some s.agent.relocation_status
          departure_building_id := some s.agent.b_id }⟩).1
    simp only [] at h1 ⊢
    rw [h1]
    rfl

/-- The service-distance refresh never touches the model. -/
theorem update_service_distances_model (s : Sim) :
    (update_service_distances s).model = s.model := rfl

/-- Evacuation admission depends only on the monthly counters and the
step index. -/
theorem can_evacuate_agent_congr (m m2 : ModelState) (month : Nat)
    (h1 : m2.monthly_evacuations = m.monthly_evacuations)
    (h2 : m2.current_step = m.current_step) :
    can_evacuate_agent m2 month = can_evacuate_agent m month := by
  unfold can_evacuate_agent
  rw [h1, h2]

/-- Evacuation-counter effect of `go_to_shelter`: the counter changes
only on the no-shelter fallthrough, where it is bumped exactly when the
quota admits the household. -/
theorem go_to_shelter_evac (s : Sim) :
    (go_to_shelter s).model.monthly_evacuations = s.model.monthly_evacuations ∨
    (can_evacuate_agent s.model s.model.current_month = true ∧
      (go_to_shelter s).model.monthly_evacuations =
        bumpAt s.model.monthly_evacuations s.model.current_month) := by
  simp only [go_to_shelter]
  rcases find_shelter_spec s.model s.agent.coord with ⟨hn, hm⟩ | ⟨hlt, idx, hs, hocc, hm⟩
  · rw [hn, hm]
    rcases leave_city_due_to_no_shelter_evac ⟨s.model, s.agent⟩ with ⟨h1, h2⟩ | ⟨h1, h2⟩
    · exact Or.inl h2
    · exact Or.inr ⟨h1, h2⟩
  · rw [hs]
    left
    have hlv := (leave_current_location_model_spec
      ⟨(find_shelter_for_agent s.model s.agent.coord).2, s.agent⟩).1
    simp only [update_service_distances_model] at hlv ⊢
    rw [hlv, hm]

/-- Evacuation-counter effect of `try_to_get_unstuck`: all evacuation
recordings on this path, including the nested no-shelter fallthrough
inside `go_to_shelter`, happen only under a successful admission
check. -/
theorem try_to_get_unstuck_evac (s : Sim) :
    (try_to_get_unstuck s).model.monthly_evacuations = s.model.monthly_evacuations ∨
    (can_evacuate_agent s.model s.model.current_month = true ∧
      (try_to_get_unstuck s).model.monthly_evacuations =
        bumpAt s.model.monthly_evacuations s.model.current_month) := by
  simp only [try_to_get_unstuck]
  rcases find_shelter_spec s.model s.agent.coord with ⟨hn, hm⟩ | ⟨hlt, idx, hs, hocc, hm⟩
  · rw [hn, hm]
    by_cases hc : can_evacuate_agent s.model s.model.current_month = true
    · right
      refine ⟨hc, ?_⟩
      rw [if_pos hc]
      rfl
    · left
      rw [if_neg hc]
  · rw [hs]
    have hgo := go_to_shelter_evac
      ⟨(find_shelter_for_agent s.model s.agent.coord).2, s.agent⟩
    have hme : (find_shelter_for_agent s.model s.agent.coord).2.monthly_evacuations =
        s.model.monthly_evacuations := by
      rw [hm]
    have hmo : (find_shelter_for_agent s.model s.agent.coord).2.current_month =
        s.model.current_month := by
      rw [hm]
    have hst : (find_shelter_for_agent s.model s.agent.coord).2.current_step =
        s.model.current_step := by
      rw [hm]
    rcases hgo with h1 | ⟨h1, h2⟩
    · left
      rw [h1]
      exact hme
    · right
      constructor
      · rw [← can_evacuate_agent_congr (s.model)
          ((find_shelter_for_agent s.model s.agent.coord).2) s.model.current_month hme hst]
        rw [← hmo]
        exact h1
      · rw [h2, hme, hmo]

/-- The three departure code paths of agent.py that request evacuation
admission. -/
inductive DeparturePath where
  | deterministic
  | noShelter
  | unstuck

/-- Run one departure path on a household/model pair. -/
def runDeparture : DeparturePath → Sim → Sim
  | .deterministic => leave_city_deterministically
  | .noShelter => leave_city_due_to_no_shelter
  | .unstuck => try_to_get_unstuck

/-- C3: evacuation is granted iff the current month's running departure
count is strictly below the step's quota (an absent quota entry is the
infinite limit); `record_agent_evacuation` increments exactly that
month's counter; and on every departure path — deterministic forced
departure, departure for lack of shelter, and evacuation from stuck —
the month's counter either stays unchanged or, only under a granted
admission, grows by exactly one, so the month's departure count never
exceeds a finite quota. -/
theorem evacuation_quota_admission (p : DeparturePath) (s : Sim) (limit count : Nat)
    (hcount : count = s.model.monthly_evacuations s.model.current_month) :
    (can_evacuate_agent s.model s.model.current_month = true ↔
      (∀ l, get_evacuation_limit s.model.current_step = some l → count < l)) ∧
    ((record_agent_evacuation s.model s.model.current_month).monthly_evacuations
        s.model.current_month = count + 1) ∧
    ((runDeparture p s).model.monthly_evacuations s.model.current_month = count ∨
      (can_evacuate_agent s.model s.model.current_month = true ∧
        (runDeparture p s).model.monthly_evacuations s.model.current_month = count + 1)) ∧
    (∀ mo, mo ≠ s.model.current_month →
      (runDeparture p s).model.monthly_evacuations mo = s.model.monthly_evacuations mo) ∧
    (get_evacuation_limit s.model.current_step = some limit → count ≤ limit →
      (runDeparture p s).model.monthly_evacuations s.model.current_month ≤ limit) := by
  subst hcount
  have hpath : (runDeparture p s).model.monthly_evacuations =
      s.model.monthly_evacuations ∨
      (can_evacuate_agent s.model s.model.current_month = true ∧
        (runDeparture p s).model.monthly_evacuations =
          bumpAt s.model.monthly_evacuations s.model.current_month) := by
    cases p
    case deterministic =>
      rcases leave_city_deterministically_evac s with ⟨_, h⟩ | ⟨h1, h2⟩
      · exact Or.inl h
      · exact Or.inr ⟨h1, h2⟩
    case noShelter =>
      rcases leave_city_due_to_no_shelter_evac s with ⟨_, h⟩ | ⟨h1, h2⟩
      · exact Or.inl h
      · exact Or.inr ⟨h1, h2⟩
    case unstuck => exact try_to_get_unstuck_evac s
  refine ⟨?_, ?_, ?_, ?_, ?_⟩
  · unfold can_evacuate_agent
    cases hl : get_evacuation_limit s.model.current_step with
    | none => simp
    | some l => simp
  · simp [record_agent_evacuation]
  · rcases hpath with h | ⟨h1, h2⟩
    · exact Or.inl (by rw [h])
    · refine Or.inr ⟨h1, ?_⟩
      rw [h2]
      simp [bumpAt]
  · intro mo hmo
    rcases hpath with h | ⟨_, h⟩
    · rw [h]
    · rw [h]
      simp [bumpAt, hmo]
  · intro hl hle
    rcases hpath with h | ⟨hc, h⟩
    · rw [h]
      exact hle
    · unfold can_evacuate_agent at hc
      rw [hl] at hc
      simp only [decide_eq_true_eq] at hc
      rw [h]
      simp [bumpAt]
      omega

/-- Witness for C3: recording an evacuation on the base model
increments the current month's counter from 0 to 1. -/
theorem evacuation_quota_admission_witness :
    (record_agent_evacuation baseModel baseModel.current_month).monthly_evacuations
      baseModel.current_month = 0 + 1 :=
  (evacuation_quota_admission .deterministic ⟨baseModel, baseAgent⟩ 4000 0 rfl).2.1

/-! ## Shelter-capacity bookkeeping (claims C2 and C10) -/

/-- 1 when the household currently holds a shelter slot, else 0. -/
def holdN (a : Agent) : Nat := if a.shelter_id.isSome then 1 else 0

/-- A household never counts as more than one slot holder. -/
theorem holdN_le_one (a : Agent) : holdN a ≤ 1 := by
  unfold holdN
  split <;> omega

/-- Releasing the current location never turns a non-holder into a
holder. -/
theorem leave_current_location_holdN (s : Sim) :
    holdN (leave_current_location s).agent ≤ holdN s.agent := by
  simp only [leave_current_location, handle_temporary_renter_departure]
  repeat' split
  all_goals simp [holdN]

/-- Relation between a household/model pair and its state after one
embedded operation, capturing everything the shelter-capacity
invariants need: the step, month and total capacity are unchanged, the
aggregate grant counter never decreases, the number of held slots grows
by at most the number of counted grants, and the counter respects the
step's active capacity whenever it did before. -/
def ShelterOK (s s2 : Sim) : Prop :=
  s2.model.current_step = s.model.current_step ∧
  s2.model.current_month = s.model.current_month ∧
  s2.model.total_shelter_capacity = s.model.total_shelter_capacity ∧
  s.model.current_shelter_occupancy ≤ s2.model.current_shelter_occupancy ∧
  holdN s2.agent + s.model.current_shelter_occupancy ≤
    holdN s.agent + s2.model.current_shelter_occupancy ∧
  (s.model.current_shelter_occupancy ≤
      get_active_shelter_capacity s.model s.model.current_month →
    s2.model.current_shelter_occupancy ≤
      get_active_shelter_capacity s.model s.model.current_month)

/-- The active capacity depends only on the step index and the total
capacity. -/
theorem get_active_shelter_capacity_congr (m m2 : ModelState) (mo mo2 : Nat)
    (h1 : m2.current_step = m.current_step)
    (h2 : m2.total_shelter_capacity = m.total_shelter_capacity) :
    get_active_shelter_capacity m2 mo2 = get_active_shelter_capacity m mo := by
  unfold get_active_shelter_capacity
  rw [h1, h2]

/-- `ShelterOK` composes along successive operations. -/
theorem ShelterOK.comp {s1 s2 s3 : Sim} (h12 : ShelterOK s1 s2) (h23 : ShelterOK s2 s3) :
    ShelterOK s1 s3 := by
  obtain ⟨a1, a2, a3, a4, a5, a6⟩ := h12
  obtain ⟨b1, b2, b3, b4, b5, b6⟩ := h23
  have hcap : get_active_shelter_capacity s2.model s2.model.current_month =
      get_active_shelter_capacity s1.model s1.model.current_month :=
    get_active_shelter_capacity_congr _ _ _ _ a1 a3
  refine ⟨b1.trans a1, b2.trans a2, b3.trans a3, a4.trans b4, by omega, ?_⟩
  intro h
  have h2 := a6 h
  rw [← hcap] at h2 ⊢
  exact b6 h2

/-- `ShelterOK` holds whenever an operation leaves the step, month,
total capacity and aggregate counter unchanged and does not create a
slot holder. -/
theorem shelterOK_of_parts (s s2 : Sim)
    (h1 : s2.model.current_step = s.model.current_step)
    (h2 : s2.model.current_month = s.model.current_month)
    (h3 : s2.model.total_shelter_capacity = s.model.total_shelter_capacity)
    (h4 : s2.model.current_shelter_occupancy = s.model.current_shelter_occupancy)
    (h5 : holdN s2.agent ≤ holdN s.agent) : ShelterOK s s2 := by
  refine ⟨h1, h2, h3, le_of_eq h4.symm, by omega, ?_⟩
  intro h
  rw [h4]
  exact h

/-- `ShelterOK` holds across a granted shelter assignment: the counter
grows by one, which the strict guard keeps within the active
capacity. -/
theorem shelterOK_grant (s s2 : Sim)
    (h1 : s2.model.current_step = s.model.current_step)
    (h2 : s2.model.current_month = s.model.current_month)
    (h3 : s2.model.total_shelter_capacity = s.model.total_shelter_capacity)
    (h4 : s2.model.current_shelter_occupancy = s.model.current_shelter_occupancy + 1)
    (h5 : s.model.current_shelter_occupancy <
      get_active_shelter_capacity s.model s.model.current_month) : ShelterOK s s2 := by
  have hh := holdN_le_one s2.agent
  refine ⟨h1, h2, h3, by omega, by omega, ?_⟩
  intro _
  omega

/-- Releasing the current location satisfies `ShelterOK`. -/
theorem leave_current_location_ok (s : Sim) : ShelterOK s (leave_current_location s) := by
  have h := leave_current_location_model_spec s
  exact shelterOK_of_parts _ _ h.2.2.1 h.2.1 h.2.2.2.2.1 h.2.2.2.1
    (leave_current_location_holdN s)

/-- Becoming stuck satisfies `ShelterOK`. -/
theorem become_stuck_ok (s : Sim) : ShelterOK s (become_stuck s) :=
  shelterOK_of_parts _ _ rfl rfl rfl rfl (le_of_eq rfl)

/-- Returning to the original home satisfies `ShelterOK`. -/
theorem return_to_original_ok (s : Sim) : ShelterOK s (return_to_original s) :=
  ShelterOK.comp (leave_current_location_ok s)
    (shelterOK_of_parts _ _ rfl rfl rfl rfl (le_of_eq rfl))

/-- The service-distance refresh never touches the shelter
reference. -/
theorem update_service_distances_shelter_id (s : Sim) :
    (update_service_distances s).agent.shelter_id = s.agent.shelter_id := by
  simp only [update_service_distances]
  repeat' split
  all_goals simp

/-- Moving to a rental unit satisfies `ShelterOK`. -/
theorem move_to_rental_ok (s : Sim) (rid : RentalId) (bc : ℚ × ℚ) :
    ShelterOK s (move_to_rental s rid bc) := by
  refine ShelterOK.comp (leave_current_location_ok s)
    (shelterOK_of_parts _ _ rfl rfl rfl rfl ?_)
  simp [move_to_rental, update_service_distances_shelter_id, holdN]

/-- Moving to a relative's home satisfies `ShelterOK`. -/
theorem move_to_relative_ok (s : Sim) : ShelterOK s (move_to_relative s) := by
  refine ShelterOK.comp (leave_current_location_ok s)
    (shelterOK_of_parts _ _ rfl rfl rfl rfl ?_)
  simp [move_to_relative, update_service_distances_shelter_id, holdN]

/-- Moving to a new building satisfies `ShelterOK`. -/
theorem move_to_new_building_ok (s : Sim) (info : NewBuildingInfo) :
    ShelterOK s (move_to_new_building s info) := by
  refine ShelterOK.comp (leave_current_location_ok s)
    (shelterOK_of_parts _ _ rfl rfl rfl rfl ?_)
  simp [move_to_new_building, update_service_distances_shelter_id, holdN]

/-- `leave_city_deterministically` satisfies `ShelterOK`. -/
theorem leave_city_deterministically_ok (s : Sim) :
    ShelterOK s (leave_city_deterministically s) := by
  simp only [leave_city_deterministically]
  split
  · exact shelterOK_of_parts _ _ rfl rfl rfl rfl (le_of_eq rfl)
  · have hspec := leave_current_location_model_spec
      ⟨record_agent_evacuation (record_departure s).model
        (record_departure s).model.current_month, (record_departure s).agent⟩
    have hh := leave_current_location_holdN
      ⟨record_agent_evacuation (record_departure s).model
        (record_departure s).model.current_month, (record_departure s).agent⟩
    refine shelterOK_of_parts _ _ ?_ ?_ ?_ ?_ ?_
    · exact hspec.2.2.1
    · exact hspec.2.1
    · exact hspec.2.2.2.2.1
    · exact hspec.2.2.2.1
    · exact hh

/-- `leave_city_due_to_no_shelter` satisfies `ShelterOK`. -/
theorem leave_city_due_to_no_shelter_ok (s : Sim) :
    ShelterOK s (leave_city_due_to_no_shelter s) := by
  simp only [leave_city_due_to_no_shelter]
  split
  · exact shelterOK_of_parts _ _ rfl rfl rfl rfl (le_of_eq rfl)
  · have hspec := leave_current_location_model_spec
      ⟨record_agent_evacuation (record_departure s).model
        (record_departure s).model.current_month, (record_departure s).agent⟩
    have hh := leave_current_location_holdN
      ⟨record_agent_evacuation (record_departure s).model
        (record_departure s).model.current_month, (record_departure s).agent⟩
    refine shelterOK_of_parts _ _ ?_ ?_ ?_ ?_ ?_
    · exact hspec.2.2.1
    · exact hspec.2.1
    · exact hspec.2.2.2.2.1
    · exact hspec.2.2.2.1
    · exact hh

/-- `go_to_shelter` satisfies `ShelterOK`: a grant increments the
counter only below the active capacity, and the fallthrough releases or
keeps resources. -/
theorem go_to_shelter_ok (s : Sim) : ShelterOK s (go_to_shelter s) := by
  simp only [go_to_shelter]
  rcases find_shelter_spec s.model s.agent.coord with ⟨hn, hm⟩ | ⟨hlt, idx, hs, hocc, hm⟩
  · rw [hn, hm]
    exact leave_city_due_to_no_shelter_ok ⟨s.model, s.agent⟩
  · rw [hs]
    have hspec := leave_current_location_model_spec
      ⟨(find_shelter_for_agent s.model s.agent.coord).2, s.agent⟩
    refine shelterOK_grant _ _ ?_ ?_ ?_ ?_ hlt
    · rw [update_service_distances_model]
      refine hspec.2.2.1.trans ?_
      rw [hm]
    · rw [update_service_distances_model]
      refine hspec.2.1.trans ?_
      rw [hm]
    · rw [update_service_distances_model]
      refine hspec.2.2.2.2.1.trans ?_
      rw [hm]
    · rw [update_service_distances_model]
      refine hspec.2.2.2.1.trans ?_
      rw [hm]

/-- `try_to_get_unstuck` satisfies `ShelterOK`: the two chained shelter
queries each increment the counter only under the capacity guard. -/
theorem try_to_get_unstuck_ok (s : Sim) : ShelterOK s (try_to_get_unstuck s) := by
  simp only [try_to_get_unstuck]
  rcases find_shelter_spec s.model s.agent.coord with ⟨hn, hm⟩ | ⟨hlt, idx, hs, hocc, hm⟩
  · rw [hn, hm]
    dsimp only
    split
    · exact shelterOK_of_parts _ _ rfl rfl rfl rfl (le_of_eq rfl)
    · exact shelterOK_of_parts _ _ rfl rfl rfl rfl (le_of_eq rfl)
  · rw [hs]
    have h1 : ShelterOK s ⟨(find_shelter_for_agent s.model s.agent.coord).2, s.agent⟩ := by
      refine shelterOK_grant _ _ ?_ ?_ ?_ ?_ hlt
      · rw [hm]
      · rw [hm]
      · rw [hm]
      · rw [hm]
    exact ShelterOK.comp h1
      (go_to_shelter_ok ⟨(find_shelter_for_agent s.model s.agent.coord).2, s.agent⟩)

/-- `decide_initial_move` satisfies `ShelterOK`. -/
theorem decide_initial_move_ok (s : Sim) : ShelterOK s (decide_initial_move s) := by
  have h0 : ShelterOK s { s with agent := { s.agent with has_ever_left_original := true } } :=
    shelterOK_of_parts _ _ rfl rfl rfl rfl (le_of_eq rfl)
  simp only [decide_initial_move]
  split
  · exact ShelterOK.comp h0 (move_to_rental_ok _ _ _)
  · split
    · exact ShelterOK.comp h0 (move_to_relative_ok _)
    · exact ShelterOK.comp h0 (go_to_shelter_ok _)

/-- `evaluate_options` satisfies `ShelterOK`. -/
theorem evaluate_options_ok (s : Sim) : ShelterOK s (evaluate_options s) := by
  simp only [evaluate_options]
  split
  · exact return_to_original_ok s
  · split
    · exact move_to_rental_ok _ _ _
    · split
      · split
        · exact move_to_new_building_ok _ _
        · exact shelterOK_of_parts _ _ rfl rfl rfl rfl (le_of_eq rfl)
      · exact shelterOK_of_parts _ _ rfl rfl rfl rfl (le_of_eq rfl)

/-- `handle_satisfied` satisfies `ShelterOK`. -/
theorem handle_satisfied_ok (s : Sim) : ShelterOK s (handle_satisfied s) := by
  simp only [handle_satisfied]
  split
  · split
    · exact return_to_original_ok s
    · exact shelterOK_of_parts _ _ rfl rfl rfl rfl (le_of_eq rfl)
  · exact shelterOK_of_parts _ _ rfl rfl rfl rfl (le_of_eq rfl)

/-- `return_from_outside` satisfies `ShelterOK`. -/
theorem return_from_outside_ok (s : Sim) : ShelterOK s (return_from_outside s) := by
  have h0 : ShelterOK s ⟨{ s.model with
      left_city_total_returns := s.model.left_city_total_returns + 1 },
      { s.agent with relocation_status := .return_from_outside }⟩ :=
    shelterOK_of_parts _ _ rfl rfl rfl rfl (le_of_eq rfl)
  simp only [return_from_outside]
  split
  · exact ShelterOK.comp h0 (return_to_original_ok _)
  · exact ShelterOK.comp h0 (decide_initial_move_ok _)

/-- `evaluate_return_from_outside` satisfies `ShelterOK`. -/
theorem evaluate_return_from_outside_ok (s : Sim) :
    ShelterOK s (evaluate_return_from_outside s) := by
  simp only [evaluate_return_from_outside]
  split
  · exact return_from_outside_ok s
  · split
    · split
      · exact return_from_outside_ok s
      · exact shelterOK_of_parts _ _ rfl rfl rfl rfl (le_of_eq rfl)
    · exact shelterOK_of_parts _ _ rfl rfl rfl rfl (le_of_eq rfl)

/-- `handle_low_satisfaction` with a configured threshold satisfies
`ShelterOK` on its result. -/
theorem handle_low_satisfaction_ok (t : Nat) (s s2 : Sim)
    (h : handle_low_satisfaction (some t) s = Except.ok s2) : ShelterOK s s2 := by
  revert h
  show (if t ≤ s.agent.months_low_satisfaction ∧
      s.agent.has_left_deterministically = false
    then Except.ok (leave_city_deterministically s)
    else Except.ok (if s.agent.relocation_status = Status.original
      then decide_initial_move s else evaluate_options s)) = Except.ok s2 →
    ShelterOK s s2
  split
  · intro h
    injection h with h
    subst h
    exact leave_city_deterministically_ok s
  · intro h
    injection h with h
    subst h
    split
    · exact decide_initial_move_ok s
    · exact evaluate_options_ok s

/-- The full per-household decision step satisfies `ShelterOK` whenever
it returns a defined state. -/
theorem agent_step_shelterOK (thr : Option Nat) (s s2 : Sim)
    (h : agent_step thr s = Except.ok s2) : ShelterOK s s2 := by
  have hEco := update_economic_status_preserves s
  have h0 : ShelterOK s (update_economic_status s) :=
    shelterOK_of_parts _ _ (by rw [hEco.1]) (by rw [hEco.1]) (by rw [hEco.1])
      (by rw [hEco.1]) (le_of_eq (by unfold holdN; rw [hEco.2.2.2.2]))
  have h1 : ShelterOK s { update_economic_status s with
      agent := { (update_economic_status s).agent with
        satisfaction := calc_satisfaction_fast (update_economic_status s) false } } :=
    ShelterOK.comp h0 (shelterOK_of_parts _ _ rfl rfl rfl rfl (le_of_eq rfl))
  revert h
  simp only [agent_step]
  split
  · intro h
    injection h with h
    subst h
    exact ShelterOK.comp h1 (evaluate_return_from_outside_ok _)
  · split
    · intro h
      injection h with h
      subst h
      exact ShelterOK.comp h1 (try_to_get_unstuck_ok _)
    · split
      · intro h
        cases thr with
        | none => exact absurd h (by simp [handle_low_satisfaction])
        | some t =>
          have hmid := handle_low_satisfaction_ok t _ s2 h
          refine ShelterOK.comp ?_ hmid
          exact ShelterOK.comp h0 (shelterOK_of_parts _ _ rfl rfl rfl rfl (le_of_eq rfl))
      · intro h
        injection h with h
        subst h
        exact ShelterOK.comp h1 (ShelterOK.comp
          (shelterOK_of_parts _ _ rfl rfl rfl rfl (le_of_eq rfl))
          (handle_satisfied_ok _))

/-! ## Global run model (claims C2 and C10) -/

/-- Whole-run state: the shared engine-owned model plus the scheduler's
household list in creation order. -/
structure GlobalState where
  model : ModelState
  agents : List Agent

/-- Number of households currently holding a shelter slot — the
claim's notion of aggregate shelter occupancy. -/
def holders (g : GlobalState) : Nat := (g.agents.map holdN).sum

/-- One observable transition of a run.  `agent_act` is one household
executing its embedded `HouseholdAgent.step` (the scheduler only runs
households after the first `advance`, so the step index is at least 1);
`advance` is the engine's `DTRecoveryModel.advance` bookkeeping before
the households act: the step index increments, the month and every
cache or rental-availability field may change arbitrarily (an
over-approximation of `_update_functionality_caches` and
`_update_available_rentals`), while the shelter pool state persists. -/
inductive SimStep : GlobalState → GlobalState → Prop where
  | agent_act (g : GlobalState) (i : Nat) (thr : Option Nat) (s2 : Sim)
      (hi : i < g.agents.length) (hstep : 1 ≤ g.model.current_step)
      (hrun : agent_step thr ⟨g.model, g.agents.get ⟨i, hi⟩⟩ = Except.ok s2) :
      SimStep g ⟨s2.model, g.agents.set i s2.agent⟩
  | advance (g : GlobalState) (m2 : ModelState)
      (hstep : m2.current_step = g.model.current_step + 1)
      (hocc : m2.shelter_occupancy = g.model.shelter_occupancy)
      (hcur : m2.current_shelter_occupancy = g.model.current_shelter_occupancy)
      (hcap : m2.shelter_capacity = g.model.shelter_capacity)
      (htot : m2.total_shelter_capacity = g.model.total_shelter_capacity) :
      SimStep g ⟨m2, g.agents⟩

/-- The state produced by `DTRecoveryModel.__init__`: step index 0, no
grants counted, and no household holding a shelter slot. -/
def InitState (g : GlobalState) : Prop :=
  g.model.current_step = 0 ∧ g.model.current_shelter_occupancy = 0 ∧
  ∀ a ∈ g.agents, a.shelter_id = none

/-- Inductive invariant tying the holder count, the grant counter and
the step-indexed active capacity together. -/
def ShelterInv (g : GlobalState) : Prop :=
  holders g ≤ g.model.current_shelter_occupancy ∧
  (g.model.current_step = 0 → g.model.current_shelter_occupancy = 0) ∧
  (1 ≤ g.model.current_step →
    g.model.current_shelter_occupancy ≤
      get_active_shelter_capacity g.model g.model.current_month)

/-- Replacing one list element changes a mapped sum by exactly the
difference of the images. -/
theorem sum_map_holdN_set (l : List Agent) (i : Nat) (a : Agent) (h : i < l.length) :
    ((l.set i a).map holdN).sum + holdN (l.get ⟨i, h⟩) = (l.map holdN).sum + holdN a := by
  induction l generalizing i with
  | nil => cases h
  | cons x xs ih =>
    cases i with
    | zero => simp [List.set]; omega
    | succ n =>
      have hn : n < xs.length := by simpa using h
      have := ih n hn
      simp only [List.set, List.map_cons, List.sum_cons, List.get]
      omega

/-- The activation schedule is monotone from step 1 on. -/
theorem get_shelter_activation_mono (k : Nat) (hk : 1 ≤ k) :
    get_shelter_activation k ≤ get_shelter_activation (k + 1) := by
  unfold get_shelter_activation
  split_ifs <;> first | omega | norm_num

/-- The active shelter capacity never shrinks when the step advances
past step 1 with the total capacity unchanged. -/
theorem get_active_shelter_capacity_step_mono (m m2 : ModelState)
    (htot : m2.total_shelter_capacity = m.total_shelter_capacity)
    (hstep : m2.current_step = m.current_step + 1) (hk : 1 ≤ m.current_step) :
    get_active_shelter_capacity m m.current_month ≤
      get_active_shelter_capacity m2 m2.current_month := by
  unfold get_active_shelter_capacity
  rw [htot, hstep]
  have h1 : (m.total_shelter_capacity : ℚ) * get_shelter_activation m.current_step ≤
      (m.total_shelter_capacity : ℚ) * get_shelter_activation (m.current_step + 1) :=
    mul_le_mul_of_nonneg_left (get_shelter_activation_mono m.current_step hk)
      (by positivity)
  exact Int.toNat_le_toNat (Int.floor_le_floor h1)

/-- Every transition preserves the shelter invariant. -/
theorem shelterInv_preserved (g g2 : GlobalState) (hstep : SimStep g g2)
    (hinv : ShelterInv g) : ShelterInv g2 := by
  obtain ⟨hhold, hzero, hcap⟩ := hinv
  cases hstep with
  | agent_act i thr s2 hi hstep1 hrun =>
    have hok := agent_step_shelterOK thr ⟨g.model, g.agents.get ⟨i, hi⟩⟩ s2 hrun
    obtain ⟨o1, o2, o3, o4, o5, o6⟩ := hok
    dsimp only at o1 o2 o3 o4 o5 o6
    have hsum := sum_map_holdN_set g.agents i s2.agent hi
    have hcap2 : get_active_shelter_capacity s2.model s2.model.current_month =
        get_active_shelter_capacity g.model g.model.current_month :=
      get_active_shelter_capacity_congr _ _ _ _ o1 o3
    refine ⟨?_, ?_, ?_⟩
    · show (( g.agents.set i s2.agent).map holdN).sum ≤ s2.model.current_shelter_occupancy
      have hg : holdN (g.agents.get ⟨i, hi⟩) ≤ 1 := holdN_le_one _
      have : holders g ≤ g.model.current_shelter_occupancy := hhold
      unfold holders at this
      omega
    · intro h0
      rw [o1] at h0
      omega
    · intro _
      show s2.model.current_shelter_occupancy ≤ _
      rw [hcap2]
      exact o6 (hcap (by omega))
  | advance m2 hstep1 hocc hcur hcapf htot =>
    refine ⟨?_, ?_, ?_⟩
    · show holders ⟨m2, g.agents⟩ ≤ m2.current_shelter_occupancy
      unfold holders
      rw [hcur]
      exact hhold
    · intro h0
      rw [hstep1] at h0
      omega
    · intro _
      show m2.current_shelter_occupancy ≤ get_active_shelter_capacity m2 m2.current_month
      rw [hcur]
      by_cases hk : 1 ≤ g.model.current_step
      · exact (hcap hk).trans (get_active_shelter_capacity_step_mono g.model m2 htot hstep1 hk)
      · have h0 : g.model.current_step = 0 := by omega
        rw [hzero h0]
        omega

/-- The shelter invariant holds in every reachable state. -/
theorem shelterInv_reachable (g0 g : GlobalState) (hinit : InitState g0)
    (hreach : Relation.ReflTransGen SimStep g0 g) : ShelterInv g := by
  induction hreach with
  | refl =>
    obtain ⟨h1, h2, h3⟩ := hinit
    refine ⟨?_, fun _ => h2, ?_⟩
    · unfold holders
      rw [h2]
      have : ∀ l : List Agent, (∀ a ∈ l, a.shelter_id = none) → (l.map holdN).sum = 0 := by
        intro l
        induction l with
        | nil => intro _; rfl
        | cons x xs ih =>
          intro hx
          simp only [List.map_cons, List.sum_cons]
          rw [ih (fun a ha => hx a (List.mem_cons_of_mem x ha))]
          have : holdN x = 0 := by
            unfold holdN
            rw [hx x (List.mem_cons_self x xs)]
            rfl
          omega
      rw [this g0.agents h3]
    · intro hk
      rw [h1] at hk
      omega
  | tail _ hlast ih => exact shelterInv_preserved _ _ hlast ih

/-- With every slot full, the scan loop denies and leaves the model
unchanged. -/
theorem shelterScan_none_of_full (m : ModelState)
    (hfull : ∀ i, (m.shelter_capacity i : Int) ≤ m.shelter_occupancy i) :
    ∀ l, shelterScan m l = (none, m) := by
  intro l
  induction l with
  | nil => rfl
  | cons idx rest ih =>
    simp only [shelterScan]
    rw [if_neg (not_lt.mpr (hfull idx))]
    exact ih

/-! ## Claim C2: aggregate shelter occupancy bound -/

/-- C2: in every reachable state of a run, the number of households
holding a shelter slot is at most the step's active capacity
`⌊total_shelter_capacity * activation(step)⌋`; a shelter request is
denied when that aggregate occupancy already equals the step's active
capacity, and also when no individual slot has spare room. -/
theorem shelter_occupancy_bounded (g0 g : GlobalState) (c : ℚ × ℚ)
    (hinit : InitState g0) (hreach : Relation.ReflTransGen SimStep g0 g) :
    holders g ≤ get_active_shelter_capacity g.model g.model.current_month ∧
    (holders g = get_active_shelter_capacity g.model g.model.current_month →
      (find_shelter_for_agent g.model c).1 = none) ∧
    ((∀ i, (g.model.shelter_capacity i : Int) ≤ g.model.shelter_occupancy i) →
      (find_shelter_for_agent g.model c).1 = none) := by
  obtain ⟨hhold, hzero, hcapk⟩ := shelterInv_reachable g0 g hinit hreach
  have hcb : g.model.current_shelter_occupancy ≤
      get_active_shelter_capacity g.model g.model.current_month := by
    by_cases hk : 1 ≤ g.model.current_step
    · exact hcapk hk
    · rw [hzero (by omega)]
      exact Nat.zero_le _
  refine ⟨hhold.trans hcb, ?_, ?_⟩
  · intro heq
    unfold find_shelter_for_agent
    rw [if_pos (by omega)]
  · intro hfull
    have hscan := shelterScan_none_of_full g.model hfull
    simp only [find_shelter_for_agent]
    split
    · rfl
    · rw [hscan]

/-- The initial run state used by the witnesses: step 0, empty
household list, empty pools. -/
def initGlobal : GlobalState := ⟨{ baseModel with current_step := 0 }, []⟩

/-- Witness for C2: the bound holds in the initial state. -/
theorem shelter_occupancy_bounded_witness :
    holders initGlobal ≤
      get_active_shelter_capacity initGlobal.model initGlobal.model.current_month :=
  (shelter_occupancy_bounded initGlobal initGlobal (0, 0)
    ⟨rfl, rfl, fun a ha => absurd ha (List.not_mem_nil a)⟩
    Relation.ReflTransGen.refl).1

/-! ## Claim C10: the aggregate counter counts grants, not occupancy -/

/-- One transition never decreases the aggregate grant counter. -/
theorem simStep_counter_mono (g g2 : GlobalState) (h : SimStep g g2) :
    g.model.current_shelter_occupancy ≤ g2.model.current_shelter_occupancy := by
  cases h with
  | agent_act i thr s2 hi hstep1 hrun =>
    have hok := agent_step_shelterOK thr ⟨g.model, g.agents.get ⟨i, hi⟩⟩ s2 hrun
    exact hok.2.2.2.1
  | advance m2 hstep1 hocc hcur hcapf htot => exact le_of_eq hcur.symm

/-- Model with aggregate counter already at the active capacity while
every individual slot is empty: 10 total units at step-1 activation
0.20 give active capacity 2, and the counter records 2 grants both of
which have since been released (the release decremented only the
per-shelter occupancy). -/
def denyModel : ModelState :=
  { baseModel with
    total_shelter_capacity := 10
    current_shelter_occupancy := 2
    shelter_coords := [(0, 0), (1, 0), (2, 0)]
    shelter_capacity := fun _ => 1
    shelter_occupancy := fun _ => 0 }

/-- C10 (implicit behaviour, confirmed): the aggregate shelter counter
is monotonically non-decreasing across every run transition; releasing
a shelter slot keeps the aggregate counter and decrements only the
per-shelter occupancy of the released slot; consequently the capacity
gate counts every grant ever made, and a request is denied at the
aggregate check even in a state where every individual slot is free. -/
theorem shelter_counter_counts_grants (g0 g : GlobalState) (s : Sim) (sid : Nat)
    (hreach : Relation.ReflTransGen SimStep g0 g)
    (hst : s.agent.relocation_status = .shelter)
    (hsid : s.agent.shelter_id = some sid) :
    g0.model.current_shelter_occupancy ≤ g.model.current_shelter_occupancy ∧
    (leave_current_location s).model.current_shelter_occupancy =
      s.model.current_shelter_occupancy ∧
    (leave_current_location s).model.shelter_occupancy sid =
      s.model.shelter_occupancy sid - 1 ∧
    (find_shelter_for_agent denyModel (0, 0)).1 = none ∧
    (∀ i, denyModel.shelter_occupancy i = 0) ∧
    denyModel.current_shelter_occupancy =
      get_active_shelter_capacity denyModel denyModel.current_month := by
  refine ⟨?_, (leave_current_location_model_spec s).2.2.2.1, ?_, ?_, fun i => rfl, ?_⟩
  · induction hreach with
    | refl => exact le_rfl
    | tail _ hlast ih => exact ih.trans (simStep_counter_mono _ _ hlast)
  · simp only [leave_current_location, handle_temporary_renter_departure, hst, hsid]
    repeat' split
    all_goals simp
  · norm_num [find_shelter_for_agent, get_active_shelter_capacity,
      get_shelter_activation, denyModel, baseModel]
  · norm_num [get_active_shelter_capacity, get_shelter_activation, denyModel, baseModel]
    decide

/-- Witness for C10: releasing a held slot on a concrete sheltered
household decrements the per-shelter occupancy of that slot. -/
theorem shelter_counter_counts_grants_witness :
    (leave_current_location ⟨{ baseModel with shelter_occupancy := fun _ => 1 },
      { baseAgent with relocation_status := .shelter, shelter_id := some 0 }⟩).model.shelter_occupancy 0 =
      ({ baseModel with shelter_occupancy := fun _ => (1 : Int) } :
        ModelState).shelter_occupancy 0 - 1 :=
  (shelter_counter_counts_grants initGlobal initGlobal
    ⟨{ baseModel with shelter_occupancy := fun _ => 1 },
      { baseAgent with relocation_status := .shelter, shelter_id := some 0 }⟩ 0
    Relation.ReflTransGen.refl rfl rfl).2.2.1

/-! ## Claim C1: at most one active placement reference -/

/-- Model for the C1 trace: the household occupies rental unit `(5, 1)`,
the shelter pool has 10 total units over two slots of capacity one, and
the month-1 evacuation quota is already exhausted (4000 departures
recorded, equal to the step-1 limit). -/
def bugModel : ModelState :=
  { baseModel with
    recovery_lookup := fun _ _ => some 0
    monthly_evacuations := fun mo => if mo = 1 then 4000 else 0
    rental_units := [((5, 1), ⟨5, (0, 0)⟩)]
    occupied_rental_units := [(5, 1)]
    total_shelter_capacity := 10
    shelter_coords := [(0, 0), (1, 0)]
    shelter_capacity := fun _ => 1
    shelter_occupancy := fun _ => 0 }

/-- A household renting unit `(5, 1)` whose low-satisfaction streak has
reached the forced-departure threshold. -/
def bugAgentR : Agent :=
  { baseAgent with
    relocation_status := .rental
    relocation_status_2 := some .renting
    rental_unit_id := some (5, 1)
    months_low_satisfaction := 1 }

/-- The state `leave_city_deterministically` produces from `bugAgentR`
when the evacuation quota denies the departure: relocation status
`stuck` with the rental reference still held. -/
def stuckAgent : Agent :=
  { baseAgent with
    relocation_status := .stuck
    relocation_status_2 := some .waiting_for_capacity
    relocation_history := [(Status.stuck, 1)]
    rental_unit_id := some (5, 1)
    months_low_satisfaction := 1
    departure_location := some (0, 0)
    departure_status := some .rental
    departure_building_id := some 1 }

/-- The model one month later (the scheduler's advance touches neither
the shelter pool nor the rental registry). -/
def bugModel2 : ModelState :=
  { bugModel with current_month := 2, current_step := 2 }

set_option maxHeartbeats 1000000 in
/-- C1 (code bug): a household holding rental unit `(5, 1)` whose
forced departure is denied by the exhausted evacuation quota becomes
stuck without releasing the rental — conjunct 3 computes
`leave_city_deterministically` exactly: the result is `stuckAgent`,
which still carries `rental_unit_id = some (5, 1)`.  The next month
`try_to_get_unstuck` grants it a shelter slot, and
`leave_current_location` (whose release patterns match only the
`shelter` and `rental` statuses, not `stuck`) releases nothing: the
household ends with an active shelter id AND the rental reference,
the unit still listed as occupied in the model — two simultaneous
active placements, refuting the at-most-one-placement invariant. -/
theorem rental_retained_after_shelter_grant :
    bugAgentR.relocation_status = Status.rental ∧
    bugAgentR.rental_unit_id = some (5, 1) ∧
    leave_city_deterministically ⟨bugModel, bugAgentR⟩ = ⟨bugModel, stuckAgent⟩ ∧
    stuckAgent.relocation_status = Status.stuck ∧
    stuckAgent.rental_unit_id = some (5, 1) ∧
    (try_to_get_unstuck ⟨bugModel2, stuckAgent⟩).agent.relocation_status = Status.shelter ∧
    (try_to_get_unstuck ⟨bugModel2, stuckAgent⟩).agent.shelter_id = some 1 ∧
    (try_to_get_unstuck ⟨bugModel2, stuckAgent⟩).agent.rental_unit_id = some (5, 1) ∧
    (5, 1) ∈ (try_to_get_unstuck ⟨bugModel2, stuckAgent⟩).model.occupied_rental_units := by
  refine ⟨rfl, rfl, ?_, rfl, rfl, ?_⟩
  · norm_num [leave_city_deterministically, record_departure, can_evacuate_agent,
      get_evacuation_limit, become_stuck, bugModel, baseModel, bugAgentR, baseAgent,
      stuckAgent]
  · norm_num [try_to_get_unstuck, go_to_shelter, find_shelter_for_agent,
      get_active_shelter_capacity, get_shelter_activation, shelterQueryOrder,
      insertSorted, shelterScan, leave_current_location,
      handle_temporary_renter_departure, update_service_distances,
      leave_city_due_to_no_shelter, record_departure, become_stuck,
      can_evacuate_agent, get_evacuation_limit, record_agent_evacuation, setAdd,
      sqDist, List.range_succ, bugModel2, bugModel, baseModel, stuckAgent, baseAgent]

/-! ## Claim C5: three shelter requests against active capacity 2 -/

/-- Scenario model of the claim: 10 total shelter units at step 1
(activation 0.20, active aggregate capacity 2), one shelter location
with ample slot capacity, reference evacuation quota untouched. -/
def scenModel : ModelState :=
  { baseModel with
    total_shelter_capacity := 10
    shelter_coords := [(0, 0)]
    shelter_capacity := fun _ => 10
    shelter_occupancy := fun _ => 0 }

/-- State after the first shelter request of the step. -/
def scenS1 : Sim := go_to_shelter ⟨scenModel, baseAgent⟩

/-- State after the second shelter request, processed in iteration
order against the model the first request left. -/
def scenS2 : Sim := go_to_shelter ⟨scenS1.model, baseAgent⟩

/-- State after the third shelter request. -/
def scenS3 : Sim := go_to_shelter ⟨scenS2.model, baseAgent⟩

set_option maxHeartbeats 1000000 in
/-- Computed outcomes of the three sequential requests: the first two
are granted slots, the aggregate counter reaches the active capacity 2,
and the third requester — denied by the aggregate gate — leaves the
city under the step-1 evacuation quota. -/
theorem scen_facts :
    scenS1.agent.relocation_status = Status.shelter ∧
    scenS1.agent.shelter_id = some 0 ∧
    scenS2.agent.relocation_status = Status.shelter ∧
    scenS2.agent.shelter_id = some 0 ∧
    scenS2.model.current_shelter_occupancy = 2 ∧
    scenS3.agent.relocation_status = Status.left_city ∧
    scenS3.agent.has_left_city = true ∧
    scenS3.agent.shelter_id = none := by
  norm_num [scenS3, scenS2, scenS1, go_to_shelter, find_shelter_for_agent,
    get_active_shelter_capacity, get_shelter_activation, shelterQueryOrder,
    insertSorted, shelterScan, leave_current_location,
    handle_temporary_renter_departure, update_service_distances,
    leave_city_due_to_no_shelter, record_departure, become_stuck,
    can_evacuate_agent, get_evacuation_limit, record_agent_evacuation, setAdd,
    sqDist, List.range_succ, scenModel, baseModel, baseAgent]

/-- C5 counterexample: in the claim's exact scenario (10 total units at
step-1 activation 0.2, three sequential requests) the first two
requesters are sheltered but the third does NOT become stuck — the
step-1 evacuation quota of 4000 admits it and it leaves the city. -/
theorem third_shelter_requester_not_stuck :
    scenS1.agent.relocation_status = Status.shelter ∧
    scenS2.agent.relocation_status = Status.shelter ∧
    scenS2.model.current_shelter_occupancy = 2 ∧
    scenS3.agent.relocation_status ≠ Status.stuck := by
  refine ⟨scen_facts.1, scen_facts.2.2.1, scen_facts.2.2.2.2.1, ?_⟩
  rw [scen_facts.2.2.2.2.2.1]
  decide

/-- C5 (amended): a household whose shelter request the model denies
(aggregate gate reached or no slot free) departs the city when the
month's evacuation quota admits it, and becomes stuck only when the
quota also denies it; under the reference quota the third requester
of the scenario therefore ends `left_city`, not `stuck`. -/
theorem go_to_shelter_denied_departs (s : Sim)
    (hdeny : (find_shelter_for_agent s.model s.agent.coord).1 = none) :
    (go_to_shelter s).agent.relocation_status =
      (if can_evacuate_agent s.model s.model.current_month then Status.left_city
       else Status.stuck) := by
  have hm : (find_shelter_for_agent s.model s.agent.coord).2 = s.model := by
    rcases find_shelter_spec s.model s.agent.coord with ⟨_, h2⟩ | ⟨_, idx, h1, _, _⟩
    · exact h2
    · rw [hdeny] at h1; exact absurd h1 (by simp)
  have hr : find_shelter_for_agent s.model s.agent.coord = (none, s.model) :=
    Prod.ext_iff.mpr ⟨hdeny, hm⟩
  simp only [go_to_shelter]
  rw [hr]
  dsimp only
  simp only [leave_city_due_to_no_shelter, record_departure]
  by_cases hc : can_evacuate_agent s.model s.model.current_month
  · rw [if_neg (by simp [hc]), if_pos hc]
  · rw [if_pos (by simp [hc]), if_neg hc]
    rfl

/-- Witness for C5: a concrete state with an empty shelter pool (active
capacity 0) denies the request, and the household leaves the city since
the reference quota admits it. -/
theorem go_to_shelter_denied_departs_witness :
    (find_shelter_for_agent baseModel baseAgent.coord).1 = none ∧
    (go_to_shelter ⟨baseModel, baseAgent⟩).agent.relocation_status =
      (if can_evacuate_agent baseModel baseModel.current_month then Status.left_city
       else Status.stuck) := by
  have hdeny : (find_shelter_for_agent baseModel baseAgent.coord).1 = none := by
    norm_num [find_shelter_for_agent, get_active_shelter_capacity,
      get_shelter_activation, baseModel]
  exact ⟨hdeny, go_to_shelter_denied_departs ⟨baseModel, baseAgent⟩ hdeny⟩

end DRTPRR
